import Mathlib

/-!
Shallow embedding of the task-management core of the review-analysis service:
the data model (`app/tasks/models.py`), the repository (`app/infra/db/repo.py`),
the task service (`app/tasks/service.py`), the request validation
(`app/tasks/schemas.py`) and the background worker (`app/workers/mock_worker.py`).

Machine conventions used throughout:
* timestamps (`datetime` values and unix seconds) are modelled as `Nat`;
* Python floats that only ever carry exact decimal constants are modelled as `ℚ`;
* a database table is a `Store`, a list of rows; the list order is the order in
  which the storage engine returns rows to an unordered `SELECT` (SQL leaves
  this order unspecified, so no operation may rely on it);
* fallible Python code (raising exceptions) is modelled with `Except`; a
  function that mutates the database returns the resulting `Store` alongside,
  and returns the input `Store` unchanged on the error path (the enclosing
  session transaction is rolled back / never flushed).
-/

namespace ReviewTasks

/-- Task types (`app/tasks/models.py`, `TaskType`). -/
inductive TaskType where
  | single
  | batch
deriving Repr, DecidableEq

/-- Task status lifecycle (`app/tasks/models.py`, `TaskStatus`). -/
inductive TaskStatus where
  | accepted
  | queued
  | ready
  | error
deriving Repr, DecidableEq

/-- Sentiment analysis results (`app/tasks/models.py`, `SentimentEnum`). -/
inductive Sentiment where
  | positive
  | negative
  | neutral
deriving Repr, DecidableEq

/-- Task error codes "01" / "02" / "03" (`app/tasks/models.py`, `TaskErrorCode`). -/
inductive TaskErrorCode where
  | code01
  | code02
  | code03
deriving Repr, DecidableEq

/-- Error payload of the API schema (`app/tasks/schemas.py`, `TaskError`). -/
structure TaskError where
  code : TaskErrorCode
  description : Option String
deriving Repr, DecidableEq

/-- One row of the `tasks` table (`app/tasks/models.py`, `Task`; the column set
matches the migration `001_initial.py`).  `end` is a Lean keyword, hence the
guillemets. -/
structure DbTask where
  id : Nat
  task_id : String
  type : TaskType
  status : TaskStatus
  user_id : String
  start : Nat
  «end» : Option Nat
  text : Option String
  file_path : Option String
  sentiment : Option Sentiment
  confidence : Option ℚ
  total_reviews : Option Nat
  positive : Option Nat
  negative : Option Nat
  neutral : Option Nat
  positive_percentage : Option ℚ
  negative_percentage : Option ℚ
  neutral_percentage : Option ℚ
  error_code : Option TaskErrorCode
  error_description : Option String
  created_at : Nat
  updated_at : Nat
deriving Repr, DecidableEq

/-- The `tasks` table.  `rows` is the sequence of rows as the storage engine
yields them to an unordered `SELECT`; SQL does not tie this order to creation
order, so stores whose row order differs from `created_at` order are valid
states. -/
structure Store where
  rows : List DbTask
deriving Repr, DecidableEq

/-- The `extra_data` dict accepted by `TaskRepository.create`; the optional
fields are the keys used at the two call sites in `app/tasks/service.py`. -/
structure ExtraData where
  text : Option String := none
  file_path : Option String := none
  filename : Option String := none
  file_size : Option Nat := none
  file_type : Option String := none
deriving Repr, DecidableEq

/-- Embeds `TaskRepository.create` (`app/infra/db/repo.py`): inserts a fresh row with
status `accepted`, `start = int(time.time())`, copying `text` for single tasks
and `file_path` for batch tasks from `extra_data`; every other payload column
starts out null.  The surrogate `id` is assigned by the store, the external
`task_id` (a uuid4) and the clock are passed in explicitly. -/
def repoCreate (s : Store) (task_type : TaskType) (user_id : String)
    (extra_data : ExtraData) (uuid : String) (now : Nat) : DbTask × Store :=
  let base : DbTask :=
    { id := s.rows.length + 1
      task_id := uuid
      type := task_type
      status := TaskStatus.accepted
      user_id := user_id
      start := now
      «end» := none
      text := none
      file_path := none
      sentiment := none
      confidence := none
      total_reviews := none
      positive := none
      negative := none
      neutral := none
      positive_percentage := none
      negative_percentage := none
      neutral_percentage := none
      error_code := none
      error_description := none
      created_at := now
      updated_at := now }
  let task :=
    if task_type = TaskType.single ∧ extra_data.text.isSome then
      { base with text := extra_data.text }
    else if task_type = TaskType.batch ∧ extra_data.file_path.isSome then
      { base with file_path := extra_data.file_path }
    else base
  (task, ⟨s.rows ++ [task]⟩)

/-- The transition table of `TaskService._is_valid_status_transition`. -/
def validTransitions (current : TaskStatus) : List TaskStatus :=
  match current with
  | TaskStatus.accepted => [TaskStatus.queued, TaskStatus.error]
  | TaskStatus.queued => [TaskStatus.ready, TaskStatus.error]
  | TaskStatus.ready => []
  | TaskStatus.error => []

/-- Embeds `TaskService._is_valid_status_transition`: the requested status must be in
the allowed list for the current status. -/
def isValidStatusTransition (current new : TaskStatus) : Bool :=
  (validTransitions current).contains new

/-- The column names of the `tasks` table (`app/tasks/models.py` and migration
`001_initial.py`).  Note: there is no `end_time` and no `error` column. -/
def tasksColumns : List String :=
  ["id", "task_id", "type", "status", "user_id", "start", "end", "text",
   "file_path", "sentiment", "confidence", "total_reviews", "positive",
   "negative", "neutral", "positive_percentage", "negative_percentage",
   "neutral_percentage", "error_code", "error_description", "created_at",
   "updated_at"]

/-- Values that appear in the string-keyed update dicts built by
`TaskService.update_task_status`. -/
inductive UVal where
  | uStatus (v : TaskStatus)
  | uNat (v : Nat)
  | uErr (v : TaskError)
deriving Repr, DecidableEq

/-- Application of one consumed `values()` entry to a row.  Of the real columns,
only `status` is ever routed here by the modelled call sites (the other keys
those sites pass, `end_time` and `error`, are rejected as unconsumed before
application). -/
def applyColumn (t : DbTask) (kv : String × UVal) : DbTask :=
  match kv with
  | ("status", UVal.uStatus v) => { t with status := v }
  | ("end", UVal.uNat v) => { t with «end» := some v }
  | _ => t

/-- Embeds `TaskRepository.update` (`app/infra/db/repo.py`), i.e. `update(Task).values(**d)`.
SQLAlchemy compiles the statement before executing it and raises
`CompileError: Unconsumed column names` if any key of `d` is not a column of
the mapped table; otherwise the matching row (if any) is updated and returned,
with `updated_at` refreshed by the model's `onupdate=func.now()`. -/
def repoUpdate (s : Store) (id : Nat) (upd : List (String × UVal)) (now : Nat) :
    Except String (Store × Option DbTask) :=
  let unconsumed := (upd.map Prod.fst).filter (fun k => ¬ tasksColumns.contains k)
  if unconsumed ≠ [] then
    Except.error ("Unconsumed column names: " ++ String.intercalate ", " unconsumed)
  else
    match s.rows.find? (fun t => t.id == id) with
    | none => Except.ok (s, none)
    | some t0 =>
      let t1 := { (upd.foldl applyColumn t0) with updated_at := now }
      let s1 : Store := ⟨s.rows.map (fun t => if t.id == id then t1 else t)⟩
      Except.ok (s1, some t1)

/-- Single-analysis result payload (`app/tasks/schemas.py`, `SingleResult`). -/
structure SingleResult where
  sentiment : Sentiment
  confidence : ℚ
  text : Option String
deriving Repr, DecidableEq

/-- Batch-analysis result payload (`app/tasks/schemas.py`, `BatchResult`). -/
structure BatchResult where
  total_reviews : Nat
  positive : Nat
  negative : Nat
  neutral : Nat
  positive_percentage : ℚ
  negative_percentage : ℚ
  neutral_percentage : ℚ
deriving Repr, DecidableEq

/-- The `result` field of the API `Task` schema: a single or a batch payload. -/
inductive TaskResult where
  | single (r : SingleResult)
  | batch (r : BatchResult)
deriving Repr, DecidableEq

/-- The API-facing task view (`app/tasks/schemas.py`, `Task`). -/
structure DomainTask where
  task_id : String
  type : TaskType
  status : TaskStatus
  start : Nat
  «end» : Option Nat
  result : Option TaskResult
  error : Option TaskError
deriving Repr, DecidableEq

/-- Embeds `TaskService._db_task_to_domain`: projects a row to the API view.
`start` is taken from `created_at`; `end` is taken from `updated_at` and only
shown for terminal statuses; `result` is always `None` here (callers attach
results); `error` is built from `error_code` / `error_description`, where
Python's `error_description or "Unknown error"` also replaces an empty
description string. -/
def dbTaskToDomain (db : DbTask) : DomainTask :=
  { task_id := db.task_id
    type := db.type
    status := db.status
    start := db.created_at
    «end» :=
      if db.status = TaskStatus.ready ∨ db.status = TaskStatus.error then
        some db.updated_at
      else none
    result := none
    error :=
      match db.error_code, db.error_description with
      | some c, some d =>
        some { code := c, description := some (if d = "" then "Unknown error" else d) }
      | some c, none => some { code := c, description := some "Unknown error" }
      | none, _ => none }

/-- Embeds `TaskRepository.get_by_task_id`: point lookup by external id. -/
def getByTaskId (s : Store) (task_id : String) : Option DbTask :=
  s.rows.find? (fun t => t.task_id == task_id)

/-- Errors raised by `TaskService.update_task_status`. -/
inductive UpdateErr where
  | taskNotFound (task_id : String)
  | invalidTaskStatus (current requested : TaskStatus)
  | dbError (msg : String)
deriving Repr, DecidableEq

/-- Embeds `TaskService.update_task_status`: looks the task up, validates the
transition against the table, then issues a generic repository update whose
dict uses the keys `status`, `error` (when an error payload is supplied) and
`end_time` (when the new status is terminal), exactly as the source builds
`update_data`. -/
def updateTaskStatus (s : Store) (task_id : String) (status : TaskStatus)
    (error : Option TaskError) (now : Nat) :
    Except UpdateErr (Option DomainTask) × Store :=
  match getByTaskId s task_id with
  | none => (Except.error (UpdateErr.taskNotFound task_id), s)
  | some db =>
    if isValidStatusTransition db.status status then
      let upd := [("status", UVal.uStatus status)]
        ++ (match error with
            | some e => [("error", UVal.uErr e)]
            | none => [])
        ++ (if status = TaskStatus.ready ∨ status = TaskStatus.error then
              [("end_time", UVal.uNat now)]
            else [])
      match repoUpdate s db.id upd now with
      | Except.error msg => (Except.error (UpdateErr.dbError msg), s)
      | Except.ok (s1, none) => (Except.ok none, s1)
      | Except.ok (s1, some db1) => (Except.ok (some (dbTaskToDomain db1)), s1)
    else
      (Except.error (UpdateErr.invalidTaskStatus db.status status), s)

/-- The `ORDER BY start DESC` sort key as a relation: `a` sorts no later than `b` when
`a.start ≥ b.start`. -/
def startGe (a b : DbTask) : Prop := b.start ≤ a.start

instance : DecidableRel startGe := fun a b => Nat.decLe b.start a.start

instance : IsTotal DbTask startGe := ⟨fun a b => Nat.le_total b.start a.start⟩

instance : IsTrans DbTask startGe := ⟨fun _ _ _ h1 h2 => Nat.le_trans h2 h1⟩

/-- Embeds `TaskRepository.get_last_user_task`: filter by user and type,
`ORDER BY start DESC`, `LIMIT 1`.  The sort key is `start` only; `ORDER BY`
leaves the relative order of equal keys unspecified, modelled as a stable sort
of the scan order. -/
def getLastUserTask (s : Store) (user_id : String) (task_type : TaskType) :
    Option DbTask :=
  ((s.rows.filter (fun t => t.user_id == user_id && t.type == task_type)).insertionSort
    startGe).head?

/-- The `ORDER BY created_at` ascending sort key as a relation. -/
def createdLe (a b : DbTask) : Prop := a.created_at ≤ b.created_at

instance : DecidableRel createdLe := fun a b => Nat.decLe a.created_at b.created_at

instance : IsTotal DbTask createdLe := ⟨fun a b => Nat.le_total a.created_at b.created_at⟩

instance : IsTrans DbTask createdLe := ⟨fun _ _ _ h1 h2 => Nat.le_trans h1 h2⟩

/-- Embeds `TaskRepository.get_tasks_by_status`: bounded scan by status,
`ORDER BY created_at` ascending (oldest first).  The mock worker does not use
this method. -/
def getTasksByStatus (s : Store) (status : TaskStatus) (limit : Nat) : List DbTask :=
  ((s.rows.filter (fun t => t.status == status)).insertionSort createdLe).take limit

/-- The exact set of code points Python `str.strip()` removes (characters
`c` with `c.strip() == ""`, CPython 3.11). -/
def pyWhitespace : List Nat :=
  [0x9, 0xa, 0xb, 0xc, 0xd, 0x1c, 0x1d, 0x1e, 0x1f, 0x20, 0x85, 0xa0, 0x1680, 0x2000, 0x2001, 0x2002, 0x2003, 0x2004, 0x2005, 0x2006, 0x2007, 0x2008, 0x2009, 0x200a, 0x2028, 0x2029, 0x202f, 0x205f, 0x3000]

/-- A character removed by Python `str.strip()`. -/
def isPySpace (c : Char) : Bool := pyWhitespace.contains c.toNat

set_option maxHeartbeats 2000000 in
/-- The full `str.lower()` mapping table for code points above ASCII:
every code point `c >= 0x80` with `chr(c).lower() != chr(c)`, paired with the
code points of its lowercase form, generated from CPython 3.11.  The single
multi-character mapping is U+0130 (Latin capital I with dot above). -/
def lowerTable : List (Nat × List Nat) :=
  [(0xc0, [0xe0]), (0xc1, [0xe1]), (0xc2, [0xe2]), (0xc3, [0xe3]),
   (0xc4, [0xe4]), (0xc5, [0xe5]), (0xc6, [0xe6]), (0xc7, [0xe7]),
   (0xc8, [0xe8]), (0xc9, [0xe9]), (0xca, [0xea]), (0xcb, [0xeb]),
   (0xcc, [0xec]), (0xcd, [0xed]), (0xce, [0xee]), (0xcf, [0xef]),
   (0xd0, [0xf0]), (0xd1, [0xf1]), (0xd2, [0xf2]), (0xd3, [0xf3]),
   (0xd4, [0xf4]), (0xd5, [0xf5]), (0xd6, [0xf6]), (0xd8, [0xf8]),
   (0xd9, [0xf9]), (0xda, [0xfa]), (0xdb, [0xfb]), (0xdc, [0xfc]),
   (0xdd, [0xfd]), (0xde, [0xfe]), (0x100, [0x101]), (0x102, [0x103]),
   (0x104, [0x105]), (0x106, [0x107]), (0x108, [0x109]), (0x10a, [0x10b]),
   (0x10c, [0x10d]), (0x10e, [0x10f]), (0x110, [0x111]), (0x112, [0x113]),
   (0x114, [0x115]), (0x116, [0x117]), (0x118, [0x119]), (0x11a, [0x11b]),
   (0x11c, [0x11d]), (0x11e, [0x11f]), (0x120, [0x121]), (0x122, [0x123]),
   (0x124, [0x125]), (0x126, [0x127]), (0x128, [0x129]), (0x12a, [0x12b]),
   (0x12c, [0x12d]), (0x12e, [0x12f]), (0x130, [0x69, 0x307]), (0x132, [0x133]),
   (0x134, [0x135]), (0x136, [0x137]), (0x139, [0x13a]), (0x13b, [0x13c]),
   (0x13d, [0x13e]), (0x13f, [0x140]), (0x141, [0x142]), (0x143, [0x144]),
   (0x145, [0x146]), (0x147, [0x148]), (0x14a, [0x14b]), (0x14c, [0x14d]),
   (0x14e, [0x14f]), (0x150, [0x151]), (0x152, [0x153]), (0x154, [0x155]),
   (0x156, [0x157]), (0x158, [0x159]), (0x15a, [0x15b]), (0x15c, [0x15d]),
   (0x15e, [0x15f]), (0x160, [0x161]), (0x162, [0x163]), (0x164, [0x165]),
   (0x166, [0x167]), (0x168, [0x169]), (0x16a, [0x16b]), (0x16c, [0x16d]),
   (0x16e, [0x16f]), (0x170, [0x171]), (0x172, [0x173]), (0x174, [0x175]),
   (0x176, [0x177]), (0x178, [0xff]), (0x179, [0x17a]), (0x17b, [0x17c]),
   (0x17d, [0x17e]), (0x181, [0x253]), (0x182, [0x183]), (0x184, [0x185]),
   (0x186, [0x254]), (0x187, [0x188]), (0x189, [0x256]), (0x18a, [0x257]),
   (0x18b, [0x18c]), (0x18e, [0x1dd]), (0x18f, [0x259]), (0x190, [0x25b]),
   (0x191, [0x192]), (0x193, [0x260]), (0x194, [0x263]), (0x196, [0x269]),
   (0x197, [0x268]), (0x198, [0x199]), (0x19c, [0x26f]), (0x19d, [0x272]),
   (0x19f, [0x275]), (0x1a0, [0x1a1]), (0x1a2, [0x1a3]), (0x1a4, [0x1a5]),
   (0x1a6, [0x280]), (0x1a7, [0x1a8]), (0x1a9, [0x283]), (0x1ac, [0x1ad]),
   (0x1ae, [0x288]), (0x1af, [0x1b0]), (0x1b1, [0x28a]), (0x1b2, [0x28b]),
   (0x1b3, [0x1b4]), (0x1b5, [0x1b6]), (0x1b7, [0x292]), (0x1b8, [0x1b9]),
   (0x1bc, [0x1bd]), (0x1c4, [0x1c6]), (0x1c5, [0x1c6]), (0x1c7, [0x1c9]),
   (0x1c8, [0x1c9]), (0x1ca, [0x1cc]), (0x1cb, [0x1cc]), (0x1cd, [0x1ce]),
   (0x1cf, [0x1d0]), (0x1d1, [0x1d2]), (0x1d3, [0x1d4]), (0x1d5, [0x1d6]),
   (0x1d7, [0x1d8]), (0x1d9, [0x1da]), (0x1db, [0x1dc]), (0x1de, [0x1df]),
   (0x1e0, [0x1e1]), (0x1e2, [0x1e3]), (0x1e4, [0x1e5]), (0x1e6, [0x1e7]),
   (0x1e8, [0x1e9]), (0x1ea, [0x1eb]), (0x1ec, [0x1ed]), (0x1ee, [0x1ef]),
   (0x1f1, [0x1f3]), (0x1f2, [0x1f3]), (0x1f4, [0x1f5]), (0x1f6, [0x195]),
   (0x1f7, [0x1bf]), (0x1f8, [0x1f9]), (0x1fa, [0x1fb]), (0x1fc, [0x1fd]),
   (0x1fe, [0x1ff]), (0x200, [0x201]), (0x202, [0x203]), (0x204, [0x205]),
   (0x206, [0x207]), (0x208, [0x209]), (0x20a, [0x20b]), (0x20c, [0x20d]),
   (0x20e, [0x20f]), (0x210, [0x211]), (0x212, [0x213]), (0x214, [0x215]),
   (0x216, [0x217]), (0x218, [0x219]), (0x21a, [0x21b]), (0x21c, [0x21d]),
   (0x21e, [0x21f]), (0x220, [0x19e]), (0x222, [0x223]), (0x224, [0x225]),
   (0x226, [0x227]), (0x228, [0x229]), (0x22a, [0x22b]), (0x22c, [0x22d]),
   (0x22e, [0x22f]), (0x230, [0x231]), (0x232, [0x233]), (0x23a, [0x2c65]),
   (0x23b, [0x23c]), (0x23d, [0x19a]), (0x23e, [0x2c66]), (0x241, [0x242]),
   (0x243, [0x180]), (0x244, [0x289]), (0x245, [0x28c]), (0x246, [0x247]),
   (0x248, [0x249]), (0x24a, [0x24b]), (0x24c, [0x24d]), (0x24e, [0x24f]),
   (0x370, [0x371]), (0x372, [0x373]), (0x376, [0x377]), (0x37f, [0x3f3]),
   (0x386, [0x3ac]), (0x388, [0x3ad]), (0x389, [0x3ae]), (0x38a, [0x3af]),
   (0x38c, [0x3cc]), (0x38e, [0x3cd]), (0x38f, [0x3ce]), (0x391, [0x3b1]),
   (0x392, [0x3b2]), (0x393, [0x3b3]), (0x394, [0x3b4]), (0x395, [0x3b5]),
   (0x396, [0x3b6]), (0x397, [0x3b7]), (0x398, [0x3b8]), (0x399, [0x3b9]),
   (0x39a, [0x3ba]), (0x39b, [0x3bb]), (0x39c, [0x3bc]), (0x39d, [0x3bd]),
   (0x39e, [0x3be]), (0x39f, [0x3bf]), (0x3a0, [0x3c0]), (0x3a1, [0x3c1]),
   (0x3a3, [0x3c3]), (0x3a4, [0x3c4]), (0x3a5, [0x3c5]), (0x3a6, [0x3c6]),
   (0x3a7, [0x3c7]), (0x3a8, [0x3c8]), (0x3a9, [0x3c9]), (0x3aa, [0x3ca]),
   (0x3ab, [0x3cb]), (0x3cf, [0x3d7]), (0x3d8, [0x3d9]), (0x3da, [0x3db]),
   (0x3dc, [0x3dd]), (0x3de, [0x3df]), (0x3e0, [0x3e1]), (0x3e2, [0x3e3]),
   (0x3e4, [0x3e5]), (0x3e6, [0x3e7]), (0x3e8, [0x3e9]), (0x3ea, [0x3eb]),
   (0x3ec, [0x3ed]), (0x3ee, [0x3ef]), (0x3f4, [0x3b8]), (0x3f7, [0x3f8]),
   (0x3f9, [0x3f2]), (0x3fa, [0x3fb]), (0x3fd, [0x37b]), (0x3fe, [0x37c]),
   (0x3ff, [0x37d]), (0x400, [0x450]), (0x401, [0x451]), (0x402, [0x452]),
   (0x403, [0x453]), (0x404, [0x454]), (0x405, [0x455]), (0x406, [0x456]),
   (0x407, [0x457]), (0x408, [0x458]), (0x409, [0x459]), (0x40a, [0x45a]),
   (0x40b, [0x45b]), (0x40c, [0x45c]), (0x40d, [0x45d]), (0x40e, [0x45e]),
   (0x40f, [0x45f]), (0x410, [0x430]), (0x411, [0x431]), (0x412, [0x432]),
   (0x413, [0x433]), (0x414, [0x434]), (0x415, [0x435]), (0x416, [0x436]),
   (0x417, [0x437]), (0x418, [0x438]), (0x419, [0x439]), (0x41a, [0x43a]),
   (0x41b, [0x43b]), (0x41c, [0x43c]), (0x41d, [0x43d]), (0x41e, [0x43e]),
   (0x41f, [0x43f]), (0x420, [0x440]), (0x421, [0x441]), (0x422, [0x442]),
   (0x423, [0x443]), (0x424, [0x444]), (0x425, [0x445]), (0x426, [0x446]),
   (0x427, [0x447]), (0x428, [0x448]), (0x429, [0x449]), (0x42a, [0x44a]),
   (0x42b, [0x44b]), (0x42c, [0x44c]), (0x42d, [0x44d]), (0x42e, [0x44e]),
   (0x42f, [0x44f]), (0x460, [0x461]), (0x462, [0x463]), (0x464, [0x465]),
   (0x466, [0x467]), (0x468, [0x469]), (0x46a, [0x46b]), (0x46c, [0x46d]),
   (0x46e, [0x46f]), (0x470, [0x471]), (0x472, [0x473]), (0x474, [0x475]),
   (0x476, [0x477]), (0x478, [0x479]), (0x47a, [0x47b]), (0x47c, [0x47d]),
   (0x47e, [0x47f]), (0x480, [0x481]), (0x48a, [0x48b]), (0x48c, [0x48d]),
   (0x48e, [0x48f]), (0x490, [0x491]), (0x492, [0x493]), (0x494, [0x495]),
   (0x496, [0x497]), (0x498, [0x499]), (0x49a, [0x49b]), (0x49c, [0x49d]),
   (0x49e, [0x49f]), (0x4a0, [0x4a1]), (0x4a2, [0x4a3]), (0x4a4, [0x4a5]),
   (0x4a6, [0x4a7]), (0x4a8, [0x4a9]), (0x4aa, [0x4ab]), (0x4ac, [0x4ad]),
   (0x4ae, [0x4af]), (0x4b0, [0x4b1]), (0x4b2, [0x4b3]), (0x4b4, [0x4b5]),
   (0x4b6, [0x4b7]), (0x4b8, [0x4b9]), (0x4ba, [0x4bb]), (0x4bc, [0x4bd]),
   (0x4be, [0x4bf]), (0x4c0, [0x4cf]), (0x4c1, [0x4c2]), (0x4c3, [0x4c4]),
   (0x4c5, [0x4c6]), (0x4c7, [0x4c8]), (0x4c9, [0x4ca]), (0x4cb, [0x4cc]),
   (0x4cd, [0x4ce]), (0x4d0, [0x4d1]), (0x4d2, [0x4d3]), (0x4d4, [0x4d5]),
   (0x4d6, [0x4d7]), (0x4d8, [0x4d9]), (0x4da, [0x4db]), (0x4dc, [0x4dd]),
   (0x4de, [0x4df]), (0x4e0, [0x4e1]), (0x4e2, [0x4e3]), (0x4e4, [0x4e5]),
   (0x4e6, [0x4e7]), (0x4e8, [0x4e9]), (0x4ea, [0x4eb]), (0x4ec, [0x4ed]),
   (0x4ee, [0x4ef]), (0x4f0, [0x4f1]), (0x4f2, [0x4f3]), (0x4f4, [0x4f5]),
   (0x4f6, [0x4f7]), (0x4f8, [0x4f9]), (0x4fa, [0x4fb]), (0x4fc, [0x4fd]),
   (0x4fe, [0x4ff]), (0x500, [0x501]), (0x502, [0x503]), (0x504, [0x505]),
   (0x506, [0x507]), (0x508, [0x509]), (0x50a, [0x50b]), (0x50c, [0x50d]),
   (0x50e, [0x50f]), (0x510, [0x511]), (0x512, [0x513]), (0x514, [0x515]),
   (0x516, [0x517]), (0x518, [0x519]), (0x51a, [0x51b]), (0x51c, [0x51d]),
   (0x51e, [0x51f]), (0x520, [0x521]), (0x522, [0x523]), (0x524, [0x525]),
   (0x526, [0x527]), (0x528, [0x529]), (0x52a, [0x52b]), (0x52c, [0x52d]),
   (0x52e, [0x52f]), (0x531, [0x561]), (0x532, [0x562]), (0x533, [0x563]),
   (0x534, [0x564]), (0x535, [0x565]), (0x536, [0x566]), (0x537, [0x567]),
   (0x538, [0x568]), (0x539, [0x569]), (0x53a, [0x56a]), (0x53b, [0x56b]),
   (0x53c, [0x56c]), (0x53d, [0x56d]), (0x53e, [0x56e]), (0x53f, [0x56f]),
   (0x540, [0x570]), (0x541, [0x571]), (0x542, [0x572]), (0x543, [0x573]),
   (0x544, [0x574]), (0x545, [0x575]), (0x546, [0x576]), (0x547, [0x577]),
   (0x548, [0x578]), (0x549, [0x579]), (0x54a, [0x57a]), (0x54b, [0x57b]),
   (0x54c, [0x57c]), (0x54d, [0x57d]), (0x54e, [0x57e]), (0x54f, [0x57f]),
   (0x550, [0x580]), (0x551, [0x581]), (0x552, [0x582]), (0x553, [0x583]),
   (0x554, [0x584]), (0x555, [0x585]), (0x556, [0x586]), (0x10a0, [0x2d00]),
   (0x10a1, [0x2d01]), (0x10a2, [0x2d02]), (0x10a3, [0x2d03]), (0x10a4, [0x2d04]),
   (0x10a5, [0x2d05]), (0x10a6, [0x2d06]), (0x10a7, [0x2d07]), (0x10a8, [0x2d08]),
   (0x10a9, [0x2d09]), (0x10aa, [0x2d0a]), (0x10ab, [0x2d0b]), (0x10ac, [0x2d0c]),
   (0x10ad, [0x2d0d]), (0x10ae, [0x2d0e]), (0x10af, [0x2d0f]), (0x10b0, [0x2d10]),
   (0x10b1, [0x2d11]), (0x10b2, [0x2d12]), (0x10b3, [0x2d13]), (0x10b4, [0x2d14]),
   (0x10b5, [0x2d15]), (0x10b6, [0x2d16]), (0x10b7, [0x2d17]), (0x10b8, [0x2d18]),
   (0x10b9, [0x2d19]), (0x10ba, [0x2d1a]), (0x10bb, [0x2d1b]), (0x10bc, [0x2d1c]),
   (0x10bd, [0x2d1d]), (0x10be, [0x2d1e]), (0x10bf, [0x2d1f]), (0x10c0, [0x2d20]),
   (0x10c1, [0x2d21]), (0x10c2, [0x2d22]), (0x10c3, [0x2d23]), (0x10c4, [0x2d24]),
   (0x10c5, [0x2d25]), (0x10c7, [0x2d27]), (0x10cd, [0x2d2d]), (0x13a0, [0xab70]),
   (0x13a1, [0xab71]), (0x13a2, [0xab72]), (0x13a3, [0xab73]), (0x13a4, [0xab74]),
   (0x13a5, [0xab75]), (0x13a6, [0xab76]), (0x13a7, [0xab77]), (0x13a8, [0xab78]),
   (0x13a9, [0xab79]), (0x13aa, [0xab7a]), (0x13ab, [0xab7b]), (0x13ac, [0xab7c]),
   (0x13ad, [0xab7d]), (0x13ae, [0xab7e]), (0x13af, [0xab7f]), (0x13b0, [0xab80]),
   (0x13b1, [0xab81]), (0x13b2, [0xab82]), (0x13b3, [0xab83]), (0x13b4, [0xab84]),
   (0x13b5, [0xab85]), (0x13b6, [0xab86]), (0x13b7, [0xab87]), (0x13b8, [0xab88]),
   (0x13b9, [0xab89]), (0x13ba, [0xab8a]), (0x13bb, [0xab8b]), (0x13bc, [0xab8c]),
   (0x13bd, [0xab8d]), (0x13be, [0xab8e]), (0x13bf, [0xab8f]), (0x13c0, [0xab90]),
   (0x13c1, [0xab91]), (0x13c2, [0xab92]), (0x13c3, [0xab93]), (0x13c4, [0xab94]),
   (0x13c5, [0xab95]), (0x13c6, [0xab96]), (0x13c7, [0xab97]), (0x13c8, [0xab98]),
   (0x13c9, [0xab99]), (0x13ca, [0xab9a]), (0x13cb, [0xab9b]), (0x13cc, [0xab9c]),
   (0x13cd, [0xab9d]), (0x13ce, [0xab9e]), (0x13cf, [0xab9f]), (0x13d0, [0xaba0]),
   (0x13d1, [0xaba1]), (0x13d2, [0xaba2]), (0x13d3, [0xaba3]), (0x13d4, [0xaba4]),
   (0x13d5, [0xaba5]), (0x13d6, [0xaba6]), (0x13d7, [0xaba7]), (0x13d8, [0xaba8]),
   (0x13d9, [0xaba9]), (0x13da, [0xabaa]), (0x13db, [0xabab]), (0x13dc, [0xabac]),
   (0x13dd, [0xabad]), (0x13de, [0xabae]), (0x13df, [0xabaf]), (0x13e0, [0xabb0]),
   (0x13e1, [0xabb1]), (0x13e2, [0xabb2]), (0x13e3, [0xabb3]), (0x13e4, [0xabb4]),
   (0x13e5, [0xabb5]), (0x13e6, [0xabb6]), (0x13e7, [0xabb7]), (0x13e8, [0xabb8]),
   (0x13e9, [0xabb9]), (0x13ea, [0xabba]), (0x13eb, [0xabbb]), (0x13ec, [0xabbc]),
   (0x13ed, [0xabbd]), (0x13ee, [0xabbe]), (0x13ef, [0xabbf]), (0x13f0, [0x13f8]),
   (0x13f1, [0x13f9]), (0x13f2, [0x13fa]), (0x13f3, [0x13fb]), (0x13f4, [0x13fc]),
   (0x13f5, [0x13fd]), (0x1c90, [0x10d0]), (0x1c91, [0x10d1]), (0x1c92, [0x10d2]),
   (0x1c93, [0x10d3]), (0x1c94, [0x10d4]), (0x1c95, [0x10d5]), (0x1c96, [0x10d6]),
   (0x1c97, [0x10d7]), (0x1c98, [0x10d8]), (0x1c99, [0x10d9]), (0x1c9a, [0x10da]),
   (0x1c9b, [0x10db]), (0x1c9c, [0x10dc]), (0x1c9d, [0x10dd]), (0x1c9e, [0x10de]),
   (0x1c9f, [0x10df]), (0x1ca0, [0x10e0]), (0x1ca1, [0x10e1]), (0x1ca2, [0x10e2]),
   (0x1ca3, [0x10e3]), (0x1ca4, [0x10e4]), (0x1ca5, [0x10e5]), (0x1ca6, [0x10e6]),
   (0x1ca7, [0x10e7]), (0x1ca8, [0x10e8]), (0x1ca9, [0x10e9]), (0x1caa, [0x10ea]),
   (0x1cab, [0x10eb]), (0x1cac, [0x10ec]), (0x1cad, [0x10ed]), (0x1cae, [0x10ee]),
   (0x1caf, [0x10ef]), (0x1cb0, [0x10f0]), (0x1cb1, [0x10f1]), (0x1cb2, [0x10f2]),
   (0x1cb3, [0x10f3]), (0x1cb4, [0x10f4]), (0x1cb5, [0x10f5]), (0x1cb6, [0x10f6]),
   (0x1cb7, [0x10f7]), (0x1cb8, [0x10f8]), (0x1cb9, [0x10f9]), (0x1cba, [0x10fa]),
   (0x1cbd, [0x10fd]), (0x1cbe, [0x10fe]), (0x1cbf, [0x10ff]), (0x1e00, [0x1e01]),
   (0x1e02, [0x1e03]), (0x1e04, [0x1e05]), (0x1e06, [0x1e07]), (0x1e08, [0x1e09]),
   (0x1e0a, [0x1e0b]), (0x1e0c, [0x1e0d]), (0x1e0e, [0x1e0f]), (0x1e10, [0x1e11]),
   (0x1e12, [0x1e13]), (0x1e14, [0x1e15]), (0x1e16, [0x1e17]), (0x1e18, [0x1e19]),
   (0x1e1a, [0x1e1b]), (0x1e1c, [0x1e1d]), (0x1e1e, [0x1e1f]), (0x1e20, [0x1e21]),
   (0x1e22, [0x1e23]), (0x1e24, [0x1e25]), (0x1e26, [0x1e27]), (0x1e28, [0x1e29]),
   (0x1e2a, [0x1e2b]), (0x1e2c, [0x1e2d]), (0x1e2e, [0x1e2f]), (0x1e30, [0x1e31]),
   (0x1e32, [0x1e33]), (0x1e34, [0x1e35]), (0x1e36, [0x1e37]), (0x1e38, [0x1e39]),
   (0x1e3a, [0x1e3b]), (0x1e3c, [0x1e3d]), (0x1e3e, [0x1e3f]), (0x1e40, [0x1e41]),
   (0x1e42, [0x1e43]), (0x1e44, [0x1e45]), (0x1e46, [0x1e47]), (0x1e48, [0x1e49]),
   (0x1e4a, [0x1e4b]), (0x1e4c, [0x1e4d]), (0x1e4e, [0x1e4f]), (0x1e50, [0x1e51]),
   (0x1e52, [0x1e53]), (0x1e54, [0x1e55]), (0x1e56, [0x1e57]), (0x1e58, [0x1e59]),
   (0x1e5a, [0x1e5b]), (0x1e5c, [0x1e5d]), (0x1e5e, [0x1e5f]), (0x1e60, [0x1e61]),
   (0x1e62, [0x1e63]), (0x1e64, [0x1e65]), (0x1e66, [0x1e67]), (0x1e68, [0x1e69]),
   (0x1e6a, [0x1e6b]), (0x1e6c, [0x1e6d]), (0x1e6e, [0x1e6f]), (0x1e70, [0x1e71]),
   (0x1e72, [0x1e73]), (0x1e74, [0x1e75]), (0x1e76, [0x1e77]), (0x1e78, [0x1e79]),
   (0x1e7a, [0x1e7b]), (0x1e7c, [0x1e7d]), (0x1e7e, [0x1e7f]), (0x1e80, [0x1e81]),
   (0x1e82, [0x1e83]), (0x1e84, [0x1e85]), (0x1e86, [0x1e87]), (0x1e88, [0x1e89]),
   (0x1e8a, [0x1e8b]), (0x1e8c, [0x1e8d]), (0x1e8e, [0x1e8f]), (0x1e90, [0x1e91]),
   (0x1e92, [0x1e93]), (0x1e94, [0x1e95]), (0x1e9e, [0xdf]), (0x1ea0, [0x1ea1]),
   (0x1ea2, [0x1ea3]), (0x1ea4, [0x1ea5]), (0x1ea6, [0x1ea7]), (0x1ea8, [0x1ea9]),
   (0x1eaa, [0x1eab]), (0x1eac, [0x1ead]), (0x1eae, [0x1eaf]), (0x1eb0, [0x1eb1]),
   (0x1eb2, [0x1eb3]), (0x1eb4, [0x1eb5]), (0x1eb6, [0x1eb7]), (0x1eb8, [0x1eb9]),
   (0x1eba, [0x1ebb]), (0x1ebc, [0x1ebd]), (0x1ebe, [0x1ebf]), (0x1ec0, [0x1ec1]),
   (0x1ec2, [0x1ec3]), (0x1ec4, [0x1ec5]), (0x1ec6, [0x1ec7]), (0x1ec8, [0x1ec9]),
   (0x1eca, [0x1ecb]), (0x1ecc, [0x1ecd]), (0x1ece, [0x1ecf]), (0x1ed0, [0x1ed1]),
   (0x1ed2, [0x1ed3]), (0x1ed4, [0x1ed5]), (0x1ed6, [0x1ed7]), (0x1ed8, [0x1ed9]),
   (0x1eda, [0x1edb]), (0x1edc, [0x1edd]), (0x1ede, [0x1edf]), (0x1ee0, [0x1ee1]),
   (0x1ee2, [0x1ee3]), (0x1ee4, [0x1ee5]), (0x1ee6, [0x1ee7]), (0x1ee8, [0x1ee9]),
   (0x1eea, [0x1eeb]), (0x1eec, [0x1eed]), (0x1eee, [0x1eef]), (0x1ef0, [0x1ef1]),
   (0x1ef2, [0x1ef3]), (0x1ef4, [0x1ef5]), (0x1ef6, [0x1ef7]), (0x1ef8, [0x1ef9]),
   (0x1efa, [0x1efb]), (0x1efc, [0x1efd]), (0x1efe, [0x1eff]), (0x1f08, [0x1f00]),
   (0x1f09, [0x1f01]), (0x1f0a, [0x1f02]), (0x1f0b, [0x1f03]), (0x1f0c, [0x1f04]),
   (0x1f0d, [0x1f05]), (0x1f0e, [0x1f06]), (0x1f0f, [0x1f07]), (0x1f18, [0x1f10]),
   (0x1f19, [0x1f11]), (0x1f1a, [0x1f12]), (0x1f1b, [0x1f13]), (0x1f1c, [0x1f14]),
   (0x1f1d, [0x1f15]), (0x1f28, [0x1f20]), (0x1f29, [0x1f21]), (0x1f2a, [0x1f22]),
   (0x1f2b, [0x1f23]), (0x1f2c, [0x1f24]), (0x1f2d, [0x1f25]), (0x1f2e, [0x1f26]),
   (0x1f2f, [0x1f27]), (0x1f38, [0x1f30]), (0x1f39, [0x1f31]), (0x1f3a, [0x1f32]),
   (0x1f3b, [0x1f33]), (0x1f3c, [0x1f34]), (0x1f3d, [0x1f35]), (0x1f3e, [0x1f36]),
   (0x1f3f, [0x1f37]), (0x1f48, [0x1f40]), (0x1f49, [0x1f41]), (0x1f4a, [0x1f42]),
   (0x1f4b, [0x1f43]), (0x1f4c, [0x1f44]), (0x1f4d, [0x1f45]), (0x1f59, [0x1f51]),
   (0x1f5b, [0x1f53]), (0x1f5d, [0x1f55]), (0x1f5f, [0x1f57]), (0x1f68, [0x1f60]),
   (0x1f69, [0x1f61]), (0x1f6a, [0x1f62]), (0x1f6b, [0x1f63]), (0x1f6c, [0x1f64]),
   (0x1f6d, [0x1f65]), (0x1f6e, [0x1f66]), (0x1f6f, [0x1f67]), (0x1f88, [0x1f80]),
   (0x1f89, [0x1f81]), (0x1f8a, [0x1f82]), (0x1f8b, [0x1f83]), (0x1f8c, [0x1f84]),
   (0x1f8d, [0x1f85]), (0x1f8e, [0x1f86]), (0x1f8f, [0x1f87]), (0x1f98, [0x1f90]),
   (0x1f99, [0x1f91]), (0x1f9a, [0x1f92]), (0x1f9b, [0x1f93]), (0x1f9c, [0x1f94]),
   (0x1f9d, [0x1f95]), (0x1f9e, [0x1f96]), (0x1f9f, [0x1f97]), (0x1fa8, [0x1fa0]),
   (0x1fa9, [0x1fa1]), (0x1faa, [0x1fa2]), (0x1fab, [0x1fa3]), (0x1fac, [0x1fa4]),
   (0x1fad, [0x1fa5]), (0x1fae, [0x1fa6]), (0x1faf, [0x1fa7]), (0x1fb8, [0x1fb0]),
   (0x1fb9, [0x1fb1]), (0x1fba, [0x1f70]), (0x1fbb, [0x1f71]), (0x1fbc, [0x1fb3]),
   (0x1fc8, [0x1f72]), (0x1fc9, [0x1f73]), (0x1fca, [0x1f74]), (0x1fcb, [0x1f75]),
   (0x1fcc, [0x1fc3]), (0x1fd8, [0x1fd0]), (0x1fd9, [0x1fd1]), (0x1fda, [0x1f76]),
   (0x1fdb, [0x1f77]), (0x1fe8, [0x1fe0]), (0x1fe9, [0x1fe1]), (0x1fea, [0x1f7a]),
   (0x1feb, [0x1f7b]), (0x1fec, [0x1fe5]), (0x1ff8, [0x1f78]), (0x1ff9, [0x1f79]),
   (0x1ffa, [0x1f7c]), (0x1ffb, [0x1f7d]), (0x1ffc, [0x1ff3]), (0x2126, [0x3c9]),
   (0x212a, [0x6b]), (0x212b, [0xe5]), (0x2132, [0x214e]), (0x2160, [0x2170]),
   (0x2161, [0x2171]), (0x2162, [0x2172]), (0x2163, [0x2173]), (0x2164, [0x2174]),
   (0x2165, [0x2175]), (0x2166, [0x2176]), (0x2167, [0x2177]), (0x2168, [0x2178]),
   (0x2169, [0x2179]), (0x216a, [0x217a]), (0x216b, [0x217b]), (0x216c, [0x217c]),
   (0x216d, [0x217d]), (0x216e, [0x217e]), (0x216f, [0x217f]), (0x2183, [0x2184]),
   (0x24b6, [0x24d0]), (0x24b7, [0x24d1]), (0x24b8, [0x24d2]), (0x24b9, [0x24d3]),
   (0x24ba, [0x24d4]), (0x24bb, [0x24d5]), (0x24bc, [0x24d6]), (0x24bd, [0x24d7]),
   (0x24be, [0x24d8]), (0x24bf, [0x24d9]), (0x24c0, [0x24da]), (0x24c1, [0x24db]),
   (0x24c2, [0x24dc]), (0x24c3, [0x24dd]), (0x24c4, [0x24de]), (0x24c5, [0x24df]),
   (0x24c6, [0x24e0]), (0x24c7, [0x24e1]), (0x24c8, [0x24e2]), (0x24c9, [0x24e3]),
   (0x24ca, [0x24e4]), (0x24cb, [0x24e5]), (0x24cc, [0x24e6]), (0x24cd, [0x24e7]),
   (0x24ce, [0x24e8]), (0x24cf, [0x24e9]), (0x2c00, [0x2c30]), (0x2c01, [0x2c31]),
   (0x2c02, [0x2c32]), (0x2c03, [0x2c33]), (0x2c04, [0x2c34]), (0x2c05, [0x2c35]),
   (0x2c06, [0x2c36]), (0x2c07, [0x2c37]), (0x2c08, [0x2c38]), (0x2c09, [0x2c39]),
   (0x2c0a, [0x2c3a]), (0x2c0b, [0x2c3b]), (0x2c0c, [0x2c3c]), (0x2c0d, [0x2c3d]),
   (0x2c0e, [0x2c3e]), (0x2c0f, [0x2c3f]), (0x2c10, [0x2c40]), (0x2c11, [0x2c41]),
   (0x2c12, [0x2c42]), (0x2c13, [0x2c43]), (0x2c14, [0x2c44]), (0x2c15, [0x2c45]),
   (0x2c16, [0x2c46]), (0x2c17, [0x2c47]), (0x2c18, [0x2c48]), (0x2c19, [0x2c49]),
   (0x2c1a, [0x2c4a]), (0x2c1b, [0x2c4b]), (0x2c1c, [0x2c4c]), (0x2c1d, [0x2c4d]),
   (0x2c1e, [0x2c4e]), (0x2c1f, [0x2c4f]), (0x2c20, [0x2c50]), (0x2c21, [0x2c51]),
   (0x2c22, [0x2c52]), (0x2c23, [0x2c53]), (0x2c24, [0x2c54]), (0x2c25, [0x2c55]),
   (0x2c26, [0x2c56]), (0x2c27, [0x2c57]), (0x2c28, [0x2c58]), (0x2c29, [0x2c59]),
   (0x2c2a, [0x2c5a]), (0x2c2b, [0x2c5b]), (0x2c2c, [0x2c5c]), (0x2c2d, [0x2c5d]),
   (0x2c2e, [0x2c5e]), (0x2c2f, [0x2c5f]), (0x2c60, [0x2c61]), (0x2c62, [0x26b]),
   (0x2c63, [0x1d7d]), (0x2c64, [0x27d]), (0x2c67, [0x2c68]), (0x2c69, [0x2c6a]),
   (0x2c6b, [0x2c6c]), (0x2c6d, [0x251]), (0x2c6e, [0x271]), (0x2c6f, [0x250]),
   (0x2c70, [0x252]), (0x2c72, [0x2c73]), (0x2c75, [0x2c76]), (0x2c7e, [0x23f]),
   (0x2c7f, [0x240]), (0x2c80, [0x2c81]), (0x2c82, [0x2c83]), (0x2c84, [0x2c85]),
   (0x2c86, [0x2c87]), (0x2c88, [0x2c89]), (0x2c8a, [0x2c8b]), (0x2c8c, [0x2c8d]),
   (0x2c8e, [0x2c8f]), (0x2c90, [0x2c91]), (0x2c92, [0x2c93]), (0x2c94, [0x2c95]),
   (0x2c96, [0x2c97]), (0x2c98, [0x2c99]), (0x2c9a, [0x2c9b]), (0x2c9c, [0x2c9d]),
   (0x2c9e, [0x2c9f]), (0x2ca0, [0x2ca1]), (0x2ca2, [0x2ca3]), (0x2ca4, [0x2ca5]),
   (0x2ca6, [0x2ca7]), (0x2ca8, [0x2ca9]), (0x2caa, [0x2cab]), (0x2cac, [0x2cad]),
   (0x2cae, [0x2caf]), (0x2cb0, [0x2cb1]), (0x2cb2, [0x2cb3]), (0x2cb4, [0x2cb5]),
   (0x2cb6, [0x2cb7]), (0x2cb8, [0x2cb9]), (0x2cba, [0x2cbb]), (0x2cbc, [0x2cbd]),
   (0x2cbe, [0x2cbf]), (0x2cc0, [0x2cc1]), (0x2cc2, [0x2cc3]), (0x2cc4, [0x2cc5]),
   (0x2cc6, [0x2cc7]), (0x2cc8, [0x2cc9]), (0x2cca, [0x2ccb]), (0x2ccc, [0x2ccd]),
   (0x2cce, [0x2ccf]), (0x2cd0, [0x2cd1]), (0x2cd2, [0x2cd3]), (0x2cd4, [0x2cd5]),
   (0x2cd6, [0x2cd7]), (0x2cd8, [0x2cd9]), (0x2cda, [0x2cdb]), (0x2cdc, [0x2cdd]),
   (0x2cde, [0x2cdf]), (0x2ce0, [0x2ce1]), (0x2ce2, [0x2ce3]), (0x2ceb, [0x2cec]),
   (0x2ced, [0x2cee]), (0x2cf2, [0x2cf3]), (0xa640, [0xa641]), (0xa642, [0xa643]),
   (0xa644, [0xa645]), (0xa646, [0xa647]), (0xa648, [0xa649]), (0xa64a, [0xa64b]),
   (0xa64c, [0xa64d]), (0xa64e, [0xa64f]), (0xa650, [0xa651]), (0xa652, [0xa653]),
   (0xa654, [0xa655]), (0xa656, [0xa657]), (0xa658, [0xa659]), (0xa65a, [0xa65b]),
   (0xa65c, [0xa65d]), (0xa65e, [0xa65f]), (0xa660, [0xa661]), (0xa662, [0xa663]),
   (0xa664, [0xa665]), (0xa666, [0xa667]), (0xa668, [0xa669]), (0xa66a, [0xa66b]),
   (0xa66c, [0xa66d]), (0xa680, [0xa681]), (0xa682, [0xa683]), (0xa684, [0xa685]),
   (0xa686, [0xa687]), (0xa688, [0xa689]), (0xa68a, [0xa68b]), (0xa68c, [0xa68d]),
   (0xa68e, [0xa68f]), (0xa690, [0xa691]), (0xa692, [0xa693]), (0xa694, [0xa695]),
   (0xa696, [0xa697]), (0xa698, [0xa699]), (0xa69a, [0xa69b]), (0xa722, [0xa723]),
   (0xa724, [0xa725]), (0xa726, [0xa727]), (0xa728, [0xa729]), (0xa72a, [0xa72b]),
   (0xa72c, [0xa72d]), (0xa72e, [0xa72f]), (0xa732, [0xa733]), (0xa734, [0xa735]),
   (0xa736, [0xa737]), (0xa738, [0xa739]), (0xa73a, [0xa73b]), (0xa73c, [0xa73d]),
   (0xa73e, [0xa73f]), (0xa740, [0xa741]), (0xa742, [0xa743]), (0xa744, [0xa745]),
   (0xa746, [0xa747]), (0xa748, [0xa749]), (0xa74a, [0xa74b]), (0xa74c, [0xa74d]),
   (0xa74e, [0xa74f]), (0xa750, [0xa751]), (0xa752, [0xa753]), (0xa754, [0xa755]),
   (0xa756, [0xa757]), (0xa758, [0xa759]), (0xa75a, [0xa75b]), (0xa75c, [0xa75d]),
   (0xa75e, [0xa75f]), (0xa760, [0xa761]), (0xa762, [0xa763]), (0xa764, [0xa765]),
   (0xa766, [0xa767]), (0xa768, [0xa769]), (0xa76a, [0xa76b]), (0xa76c, [0xa76d]),
   (0xa76e, [0xa76f]), (0xa779, [0xa77a]), (0xa77b, [0xa77c]), (0xa77d, [0x1d79]),
   (0xa77e, [0xa77f]), (0xa780, [0xa781]), (0xa782, [0xa783]), (0xa784, [0xa785]),
   (0xa786, [0xa787]), (0xa78b, [0xa78c]), (0xa78d, [0x265]), (0xa790, [0xa791]),
   (0xa792, [0xa793]), (0xa796, [0xa797]), (0xa798, [0xa799]), (0xa79a, [0xa79b]),
   (0xa79c, [0xa79d]), (0xa79e, [0xa79f]), (0xa7a0, [0xa7a1]), (0xa7a2, [0xa7a3]),
   (0xa7a4, [0xa7a5]), (0xa7a6, [0xa7a7]), (0xa7a8, [0xa7a9]), (0xa7aa, [0x266]),
   (0xa7ab, [0x25c]), (0xa7ac, [0x261]), (0xa7ad, [0x26c]), (0xa7ae, [0x26a]),
   (0xa7b0, [0x29e]), (0xa7b1, [0x287]), (0xa7b2, [0x29d]), (0xa7b3, [0xab53]),
   (0xa7b4, [0xa7b5]), (0xa7b6, [0xa7b7]), (0xa7b8, [0xa7b9]), (0xa7ba, [0xa7bb]),
   (0xa7bc, [0xa7bd]), (0xa7be, [0xa7bf]), (0xa7c0, [0xa7c1]), (0xa7c2, [0xa7c3]),
   (0xa7c4, [0xa794]), (0xa7c5, [0x282]), (0xa7c6, [0x1d8e]), (0xa7c7, [0xa7c8]),
   (0xa7c9, [0xa7ca]), (0xa7d0, [0xa7d1]), (0xa7d6, [0xa7d7]), (0xa7d8, [0xa7d9]),
   (0xa7f5, [0xa7f6]), (0xff21, [0xff41]), (0xff22, [0xff42]), (0xff23, [0xff43]),
   (0xff24, [0xff44]), (0xff25, [0xff45]), (0xff26, [0xff46]), (0xff27, [0xff47]),
   (0xff28, [0xff48]), (0xff29, [0xff49]), (0xff2a, [0xff4a]), (0xff2b, [0xff4b]),
   (0xff2c, [0xff4c]), (0xff2d, [0xff4d]), (0xff2e, [0xff4e]), (0xff2f, [0xff4f]),
   (0xff30, [0xff50]), (0xff31, [0xff51]), (0xff32, [0xff52]), (0xff33, [0xff53]),
   (0xff34, [0xff54]), (0xff35, [0xff55]), (0xff36, [0xff56]), (0xff37, [0xff57]),
   (0xff38, [0xff58]), (0xff39, [0xff59]), (0xff3a, [0xff5a]), (0x10400, [0x10428]),
   (0x10401, [0x10429]), (0x10402, [0x1042a]), (0x10403, [0x1042b]), (0x10404, [0x1042c]),
   (0x10405, [0x1042d]), (0x10406, [0x1042e]), (0x10407, [0x1042f]), (0x10408, [0x10430]),
   (0x10409, [0x10431]), (0x1040a, [0x10432]), (0x1040b, [0x10433]), (0x1040c, [0x10434]),
   (0x1040d, [0x10435]), (0x1040e, [0x10436]), (0x1040f, [0x10437]), (0x10410, [0x10438]),
   (0x10411, [0x10439]), (0x10412, [0x1043a]), (0x10413, [0x1043b]), (0x10414, [0x1043c]),
   (0x10415, [0x1043d]), (0x10416, [0x1043e]), (0x10417, [0x1043f]), (0x10418, [0x10440]),
   (0x10419, [0x10441]), (0x1041a, [0x10442]), (0x1041b, [0x10443]), (0x1041c, [0x10444]),
   (0x1041d, [0x10445]), (0x1041e, [0x10446]), (0x1041f, [0x10447]), (0x10420, [0x10448]),
   (0x10421, [0x10449]), (0x10422, [0x1044a]), (0x10423, [0x1044b]), (0x10424, [0x1044c]),
   (0x10425, [0x1044d]), (0x10426, [0x1044e]), (0x10427, [0x1044f]), (0x104b0, [0x104d8]),
   (0x104b1, [0x104d9]), (0x104b2, [0x104da]), (0x104b3, [0x104db]), (0x104b4, [0x104dc]),
   (0x104b5, [0x104dd]), (0x104b6, [0x104de]), (0x104b7, [0x104df]), (0x104b8, [0x104e0]),
   (0x104b9, [0x104e1]), (0x104ba, [0x104e2]), (0x104bb, [0x104e3]), (0x104bc, [0x104e4]),
   (0x104bd, [0x104e5]), (0x104be, [0x104e6]), (0x104bf, [0x104e7]), (0x104c0, [0x104e8]),
   (0x104c1, [0x104e9]), (0x104c2, [0x104ea]), (0x104c3, [0x104eb]), (0x104c4, [0x104ec]),
   (0x104c5, [0x104ed]), (0x104c6, [0x104ee]), (0x104c7, [0x104ef]), (0x104c8, [0x104f0]),
   (0x104c9, [0x104f1]), (0x104ca, [0x104f2]), (0x104cb, [0x104f3]), (0x104cc, [0x104f4]),
   (0x104cd, [0x104f5]), (0x104ce, [0x104f6]), (0x104cf, [0x104f7]), (0x104d0, [0x104f8]),
   (0x104d1, [0x104f9]), (0x104d2, [0x104fa]), (0x104d3, [0x104fb]), (0x10570, [0x10597]),
   (0x10571, [0x10598]), (0x10572, [0x10599]), (0x10573, [0x1059a]), (0x10574, [0x1059b]),
   (0x10575, [0x1059c]), (0x10576, [0x1059d]), (0x10577, [0x1059e]), (0x10578, [0x1059f]),
   (0x10579, [0x105a0]), (0x1057a, [0x105a1]), (0x1057c, [0x105a3]), (0x1057d, [0x105a4]),
   (0x1057e, [0x105a5]), (0x1057f, [0x105a6]), (0x10580, [0x105a7]), (0x10581, [0x105a8]),
   (0x10582, [0x105a9]), (0x10583, [0x105aa]), (0x10584, [0x105ab]), (0x10585, [0x105ac]),
   (0x10586, [0x105ad]), (0x10587, [0x105ae]), (0x10588, [0x105af]), (0x10589, [0x105b0]),
   (0x1058a, [0x105b1]), (0x1058c, [0x105b3]), (0x1058d, [0x105b4]), (0x1058e, [0x105b5]),
   (0x1058f, [0x105b6]), (0x10590, [0x105b7]), (0x10591, [0x105b8]), (0x10592, [0x105b9]),
   (0x10594, [0x105bb]), (0x10595, [0x105bc]), (0x10c80, [0x10cc0]), (0x10c81, [0x10cc1]),
   (0x10c82, [0x10cc2]), (0x10c83, [0x10cc3]), (0x10c84, [0x10cc4]), (0x10c85, [0x10cc5]),
   (0x10c86, [0x10cc6]), (0x10c87, [0x10cc7]), (0x10c88, [0x10cc8]), (0x10c89, [0x10cc9]),
   (0x10c8a, [0x10cca]), (0x10c8b, [0x10ccb]), (0x10c8c, [0x10ccc]), (0x10c8d, [0x10ccd]),
   (0x10c8e, [0x10cce]), (0x10c8f, [0x10ccf]), (0x10c90, [0x10cd0]), (0x10c91, [0x10cd1]),
   (0x10c92, [0x10cd2]), (0x10c93, [0x10cd3]), (0x10c94, [0x10cd4]), (0x10c95, [0x10cd5]),
   (0x10c96, [0x10cd6]), (0x10c97, [0x10cd7]), (0x10c98, [0x10cd8]), (0x10c99, [0x10cd9]),
   (0x10c9a, [0x10cda]), (0x10c9b, [0x10cdb]), (0x10c9c, [0x10cdc]), (0x10c9d, [0x10cdd]),
   (0x10c9e, [0x10cde]), (0x10c9f, [0x10cdf]), (0x10ca0, [0x10ce0]), (0x10ca1, [0x10ce1]),
   (0x10ca2, [0x10ce2]), (0x10ca3, [0x10ce3]), (0x10ca4, [0x10ce4]), (0x10ca5, [0x10ce5]),
   (0x10ca6, [0x10ce6]), (0x10ca7, [0x10ce7]), (0x10ca8, [0x10ce8]), (0x10ca9, [0x10ce9]),
   (0x10caa, [0x10cea]), (0x10cab, [0x10ceb]), (0x10cac, [0x10cec]), (0x10cad, [0x10ced]),
   (0x10cae, [0x10cee]), (0x10caf, [0x10cef]), (0x10cb0, [0x10cf0]), (0x10cb1, [0x10cf1]),
   (0x10cb2, [0x10cf2]), (0x118a0, [0x118c0]), (0x118a1, [0x118c1]), (0x118a2, [0x118c2]),
   (0x118a3, [0x118c3]), (0x118a4, [0x118c4]), (0x118a5, [0x118c5]), (0x118a6, [0x118c6]),
   (0x118a7, [0x118c7]), (0x118a8, [0x118c8]), (0x118a9, [0x118c9]), (0x118aa, [0x118ca]),
   (0x118ab, [0x118cb]), (0x118ac, [0x118cc]), (0x118ad, [0x118cd]), (0x118ae, [0x118ce]),
   (0x118af, [0x118cf]), (0x118b0, [0x118d0]), (0x118b1, [0x118d1]), (0x118b2, [0x118d2]),
   (0x118b3, [0x118d3]), (0x118b4, [0x118d4]), (0x118b5, [0x118d5]), (0x118b6, [0x118d6]),
   (0x118b7, [0x118d7]), (0x118b8, [0x118d8]), (0x118b9, [0x118d9]), (0x118ba, [0x118da]),
   (0x118bb, [0x118db]), (0x118bc, [0x118dc]), (0x118bd, [0x118dd]), (0x118be, [0x118de]),
   (0x118bf, [0x118df]), (0x16e40, [0x16e60]), (0x16e41, [0x16e61]), (0x16e42, [0x16e62]),
   (0x16e43, [0x16e63]), (0x16e44, [0x16e64]), (0x16e45, [0x16e65]), (0x16e46, [0x16e66]),
   (0x16e47, [0x16e67]), (0x16e48, [0x16e68]), (0x16e49, [0x16e69]), (0x16e4a, [0x16e6a]),
   (0x16e4b, [0x16e6b]), (0x16e4c, [0x16e6c]), (0x16e4d, [0x16e6d]), (0x16e4e, [0x16e6e]),
   (0x16e4f, [0x16e6f]), (0x16e50, [0x16e70]), (0x16e51, [0x16e71]), (0x16e52, [0x16e72]),
   (0x16e53, [0x16e73]), (0x16e54, [0x16e74]), (0x16e55, [0x16e75]), (0x16e56, [0x16e76]),
   (0x16e57, [0x16e77]), (0x16e58, [0x16e78]), (0x16e59, [0x16e79]), (0x16e5a, [0x16e7a]),
   (0x16e5b, [0x16e7b]), (0x16e5c, [0x16e7c]), (0x16e5d, [0x16e7d]), (0x16e5e, [0x16e7e]),
   (0x16e5f, [0x16e7f]), (0x1e900, [0x1e922]), (0x1e901, [0x1e923]), (0x1e902, [0x1e924]),
   (0x1e903, [0x1e925]), (0x1e904, [0x1e926]), (0x1e905, [0x1e927]), (0x1e906, [0x1e928]),
   (0x1e907, [0x1e929]), (0x1e908, [0x1e92a]), (0x1e909, [0x1e92b]), (0x1e90a, [0x1e92c]),
   (0x1e90b, [0x1e92d]), (0x1e90c, [0x1e92e]), (0x1e90d, [0x1e92f]), (0x1e90e, [0x1e930]),
   (0x1e90f, [0x1e931]), (0x1e910, [0x1e932]), (0x1e911, [0x1e933]), (0x1e912, [0x1e934]),
   (0x1e913, [0x1e935]), (0x1e914, [0x1e936]), (0x1e915, [0x1e937]), (0x1e916, [0x1e938]),
   (0x1e917, [0x1e939]), (0x1e918, [0x1e93a]), (0x1e919, [0x1e93b]), (0x1e91a, [0x1e93c]),
   (0x1e91b, [0x1e93d]), (0x1e91c, [0x1e93e]), (0x1e91d, [0x1e93f]), (0x1e91e, [0x1e940]),
   (0x1e91f, [0x1e941]), (0x1e920, [0x1e942]), (0x1e921, [0x1e943])]

/-- Python `str.lower()` of one character: the ASCII fast path, then the
generated table.  CPython's one context-sensitive rule (Final_Sigma, which
lowers a word-final capital sigma to U+03C2 instead of U+03C3) is modelled
context-free as U+03C3; both forms are non-ASCII, so the ASCII-pattern
containment checks of this code base are unaffected by the choice. -/
def lowerChar (c : Char) : List Char :=
  if c.toNat < 0x80 then
    [if 0x41 ≤ c.toNat ∧ c.toNat ≤ 0x5A then Char.ofNat (c.toNat + 0x20) else c]
  else
    match lowerTable.find? (fun p => p.1 == c.toNat) with
    | some p => p.2.map Char.ofNat
    | none => [c]

/-- Python `str.lower()` on a whole string. -/
def lowerPy (s : String) : String := ⟨s.data.flatMap lowerChar⟩

/-- Python `str.strip()` on a character list: drop whitespace from both ends. -/
def stripList (l : List Char) : List Char :=
  ((l.dropWhile isPySpace).reverse.dropWhile isPySpace).reverse

/-- Python `str.strip()`. -/
def pyStrip (s : String) : String := ⟨stripList s.data⟩

/-- Python `v.replace("\x00", "")`. -/
def removeNulls (s : String) : String := ⟨s.data.filter (fun c => c != '\x00')⟩

/-- Substring search: Python `needle in hay` for nonempty needles. -/
def containsSub (needle : List Char) : List Char → Bool
  | [] => needle.isEmpty
  | c :: rest => needle.isPrefixOf (c :: rest) || containsSub needle rest

/-- Python `needle in hay` on strings. -/
def pyIn (needle hay : String) : Bool := containsSub needle.data hay.data

/-! ### Background worker (`app/workers/mock_worker.py`) -/

/-- Word lists of `MockWorker._mock_analyze_sentiment`. -/
def positiveWords : List String :=
  ["хорошо", "отлично", "замечательно", "прекрасно", "рекомендую",
   "excellent", "great", "amazing", "good", "love"]

/-- Negative word list of `MockWorker._mock_analyze_sentiment`. -/
def negativeWords : List String :=
  ["плохо", "ужасно", "не рекомендую", "bad", "terrible", "awful", "hate", "worst"]

/-- Embeds `MockWorker._mock_analyze_sentiment`: mock scoring of a single text. -/
def mockAnalyzeSentiment (text : Option String) : Sentiment × ℚ :=
  match text with
  | none => (Sentiment.neutral, 0.5)
  | some t =>
    if t = "" then (Sentiment.neutral, 0.5)
    else
      let tl := lowerPy t
      let pc := (positiveWords.filter (fun w => pyIn w tl)).length
      let nc := (negativeWords.filter (fun w => pyIn w tl)).length
      if nc < pc then (Sentiment.positive, 0.85)
      else if pc < nc then (Sentiment.negative, 0.8)
      else (Sentiment.neutral, 0.6)

/-- Embeds `MockWorker._mock_batch_analysis`: the fixed mock batch figures.  The
Python float expressions `round((65/100)*100, 1)` etc. evaluate to exactly
these values. -/
def mockBatchAnalysis : BatchResult :=
  { total_reviews := 100, positive := 65, negative := 20, neutral := 15
    positive_percentage := 65, negative_percentage := 20, neutral_percentage := 15 }

/-- Embeds `MockWorker._process_accepted_tasks`: every `accepted` row is promoted to
`queued` (its `updated_at` is refreshed by the model's `onupdate`). -/
def processAcceptedTasks (s : Store) (now : Nat) : Store :=
  ⟨s.rows.map (fun t =>
    if t.status == TaskStatus.accepted then
      { t with status := TaskStatus.queued, updated_at := now }
    else t)⟩

/-- The rows selected by `MockWorker._process_queued_tasks`: status `queued`
and `updated_at` at least 5 seconds old.  The `SELECT` carries no `ORDER BY`,
so the rows come back in the engine's unspecified row order. -/
def dwelledQueued (s : Store) (now : Nat) : List DbTask :=
  s.rows.filter (fun t =>
    t.status == TaskStatus.queued && decide (t.updated_at + 5 ≤ now))

/-- Processing of one queued task (`_process_single_task` and
`_process_batch_task`), parametrised by the single-text scoring function so
that failure semantics can be stated; the mock worker instantiates it with
`workerScore` below. -/
def processOneQueued (score : DbTask → Except String (Sentiment × ℚ)) (now : Nat)
    (t : DbTask) : Except String DbTask :=
  match t.type with
  | TaskType.single =>
    (score t).map (fun r =>
      { t with status := TaskStatus.ready, «end» := some now,
               sentiment := some r.1, confidence := some r.2, updated_at := now })
  | TaskType.batch =>
    Except.ok
      { t with status := TaskStatus.ready, «end» := some now,
               total_reviews := some mockBatchAnalysis.total_reviews,
               positive := some mockBatchAnalysis.positive,
               negative := some mockBatchAnalysis.negative,
               neutral := some mockBatchAnalysis.neutral,
               positive_percentage := some mockBatchAnalysis.positive_percentage,
               negative_percentage := some mockBatchAnalysis.negative_percentage,
               neutral_percentage := some mockBatchAnalysis.neutral_percentage,
               updated_at := now }

/-- One committed row update inside the worker's session. -/
def applyRowUpdate (s : Store) (t1 : DbTask) : Store :=
  ⟨s.rows.map (fun t => if t.id == t1.id then t1 else t)⟩

/-- The body of the `for task in queued_tasks` loop: each processed task's
update is staged on the session; the first exception aborts the loop. -/
def runQueued (score : DbTask → Except String (Sentiment × ℚ)) (now : Nat) :
    List DbTask → Store → Except String Store
  | [], acc => Except.ok acc
  | t :: rest, acc =>
    match processOneQueued score now t with
    | Except.error e => Except.error e
    | Except.ok t1 => runQueued score now rest (applyRowUpdate acc t1)

/-- Embeds `MockWorker._process_queued_tasks`: the whole loop runs inside one
try/except; on success the session is committed, on any exception it is
rolled back, leaving the store as it was. -/
def processQueuedTasksWith (score : DbTask → Except String (Sentiment × ℚ))
    (s : Store) (now : Nat) : Store :=
  match runQueued score now (dwelledQueued s now) s with
  | Except.ok s1 => s1
  | Except.error _ => s

/-- The mock worker's actual scorer: total, never raises. -/
def workerScore (t : DbTask) : Except String (Sentiment × ℚ) :=
  Except.ok (mockAnalyzeSentiment t.text)

/-- The execution pass as the mock worker runs it. -/
def processQueuedTasks (s : Store) (now : Nat) : Store :=
  processQueuedTasksWith workerScore s now

/-- The order in which the execution pass performs the terminal transitions:
the order of the dwelled queued rows as the unordered `SELECT` yields them. -/
def processQueuedOrder (s : Store) (now : Nat) : List String :=
  (dwelledQueued s now).map (fun t => t.task_id)

/-- One tick of `MockWorker._process_pending_tasks`: promotion pass, then
execution pass.  (Freshly promoted rows have `updated_at = now` and therefore
never pass the dwell filter within the same tick.) -/
def workerTick (s : Store) (now : Nat) : Store :=
  processQueuedTasks (processAcceptedTasks s now) now

/-! ### Request validation (`app/tasks/schemas.py`) and task creation -/

/-- Characters rejected by `validate_user_id`. -/
def dangerousUserChars : List Char :=
  ['<', '>', ';', '&', '|', Char.ofNat 0x60, '$']

/-- SQL-keyword substrings rejected by `validate_user_id`. -/
def sqlUserPatterns : List String :=
  ["drop", "select", "insert", "update", "delete", "union", "script"]

/-- Embeds `validate_user_id` (`app/tasks/schemas.py`): reject empty/whitespace-only
ids, null bytes, control characters other than tab, dangerous punctuation and
SQL keywords; return the stripped id. -/
def validateUserId (v : String) : Except String String :=
  if pyStrip v = "" then Except.error "User ID cannot be empty or whitespace only"
  else if v.data.contains '\x00' then Except.error "User ID cannot contain null bytes"
  else if v.data.any (fun c => decide (c.toNat < 32) && c != '\t') then
    Except.error "User ID cannot contain control characters"
  else if dangerousUserChars.any (fun ch => v.data.contains ch) then
    Except.error "User ID contains potentially dangerous characters"
  else if sqlUserPatterns.any (fun p => pyIn p (lowerPy v)) then
    Except.error "User ID contains potentially dangerous SQL keywords"
  else
    let v1 := pyStrip v
    if v1.length = 0 then Except.error "User ID cannot be empty after sanitization"
    else Except.ok v1

/-- The `dangerous_patterns` list of `SingleTaskRequest.validate_text`. -/
def dangerousTextPatterns : List String :=
  ["<script", "javascript:", "onerror=", "onload=", "onclick=", "onmouseover=",
   "DROP TABLE", "DELETE FROM", "INSERT INTO", "UPDATE SET", "UNION SELECT",
   "\x27 OR \x271\x27=\x271", "\x27; --"]

/-- The first dangerous pattern found in the lowered text, if any
(`pattern.lower() in v_lower`). -/
def findDangerousText (vLower : String) : Option String :=
  dangerousTextPatterns.find? (fun p => pyIn (lowerPy p) vLower)

/-- Failure modes of single-task submission: the pydantic field constraints,
the two schema validators, and the service's own length check. -/
inductive SingleErr where
  | userFieldLength
  | badUserId (msg : String)
  | textFieldLength
  | emptyText
  | dangerousText (p : String)
  | emptyAfterSanitize
  | serviceLength
deriving Repr, DecidableEq

/-- Embeds `SingleTaskRequest.validate_text`: reject empty/whitespace-only text,
REMOVE null bytes (they are not rejected), reject dangerous patterns
case-insensitively, strip, reject if empty after sanitization, and return the
stripped text. -/
def validateText (v : String) : Except SingleErr String :=
  if pyStrip v = "" then Except.error SingleErr.emptyText
  else
    let v1 := removeNulls v
    match findDangerousText (lowerPy v1) with
    | some p => Except.error (SingleErr.dangerousText p)
    | none =>
      let v2 := pyStrip v1
      if v2.length = 0 then Except.error SingleErr.emptyAfterSanitize
      else Except.ok v2

/-- Single-task submission end to end: pydantic field constraints
(`user_id: 1..255`, `text: 1..512`) and field validators in declaration order,
then `TaskService.create_single_task` (its own `len(text) > 512` check,
`TaskRepository.create`, projection to the API view, and the immediate mock
`SingleResult` the service attaches for demo purposes).  On any failure the
transaction never flushes a row, so the store is returned unchanged. -/
def createSingleTask (s : Store) (user_id text : String) (now : Nat)
    (uuid : String) : Except SingleErr DomainTask × Store :=
  if user_id.length < 1 ∨ 255 < user_id.length then
    (Except.error SingleErr.userFieldLength, s)
  else
    match validateUserId user_id with
    | Except.error m => (Except.error (SingleErr.badUserId m), s)
    | Except.ok uid =>
      if text.length < 1 ∨ 512 < text.length then
        (Except.error SingleErr.textFieldLength, s)
      else
        match validateText text with
        | Except.error e => (Except.error e, s)
        | Except.ok v =>
          if 512 < v.length then (Except.error SingleErr.serviceLength, s)
          else
            let p := repoCreate s TaskType.single uid { text := some v } uuid now
            let t := dbTaskToDomain p.1
            (Except.ok
              { t with result := some (TaskResult.single
                  { sentiment := Sentiment.positive, confidence := 0.95,
                    text := some v }) }, p.2)

/-- Failure modes of batch-task submission. -/
inductive BatchErr where
  | badUserId (msg : String)
  | fileTooLarge (file_size max_size : Nat) (filename : String)
  | unsupportedFormat (filename ext : String)
  | validationError (msg : String)
deriving Repr, DecidableEq

/-- The bound `max_size = 10 * 1024 * 1024` of `TaskService.create_batch_task`. -/
def maxBatchFileSize : Nat := 10 * 1024 * 1024

/-- The `valid_extensions` set of `TaskService.create_batch_task`. -/
def validExtensions : List String := [".csv", ".txt", ".json"]

/-- Python `str.split(sep)` for a single-character separator, on character
lists (every occurrence splits; leading/trailing separators yield empty
pieces, as in Python). -/
def splitOnChar (sep : Char) : List Char → List (List Char)
  | [] => [[]]
  | c :: rest =>
    if c == sep then [] :: splitOnChar sep rest
    else
      match splitOnChar sep rest with
      | [] => [[c]]
      | h :: t => (c :: h) :: t

/-- Embeds `filename.lower().split(".")[-1] if "." in filename else ""`. -/
def fileExt (filename : String) : String :=
  if filename.data.contains '.' then
    ⟨(splitOnChar '.' (lowerPy filename).data).getLastD []⟩
  else ""

/-- The mock `BatchResult` attached by `create_batch_task` for demo purposes. -/
def mockCreateBatchResult : BatchResult :=
  { total_reviews := 150, positive := 90, negative := 35, neutral := 25
    positive_percentage := 60, negative_percentage := 23.3, neutral_percentage := 16.7 }

/-- Batch-task submission end to end: the router's `validate_user_id` call,
then `TaskService.create_batch_task` — size check (rejecting at `>= max`),
extension check, content validation, `TaskRepository.create` with
`extra_data = (filename, file_size, file_type)`, and the immediate mock
`BatchResult`.  `_validate_file_content` (UTF-8 decoding, line-length limits,
CSV/JSON structure) is passed in as `validateFileContent`, since every raise
inside it is the core `ValidationError`; the theorems below hold for every such
content validator. -/
def createBatchTask
    (validateFileContent : List Nat → String → String → Except String Unit)
    (s : Store) (user_id : String) (file_content : List Nat) (filename : String)
    (now : Nat) (uuid : String) : Except BatchErr DomainTask × Store :=
  match validateUserId user_id with
  | Except.error m => (Except.error (BatchErr.badUserId m), s)
  | Except.ok uid =>
    if maxBatchFileSize ≤ file_content.length then
      (Except.error (BatchErr.fileTooLarge file_content.length maxBatchFileSize filename), s)
    else
      let ext := fileExt filename
      if ¬ validExtensions.contains ("." ++ ext) then
        (Except.error (BatchErr.unsupportedFormat filename ext), s)
      else
        match validateFileContent file_content ext filename with
        | Except.error m => (Except.error (BatchErr.validationError m), s)
        | Except.ok _ =>
          let p := repoCreate s TaskType.batch uid
            { filename := some filename, file_size := some file_content.length,
              file_type := some ext } uuid now
          let t := dbTaskToDomain p.1
          (Except.ok { t with result := some (TaskResult.batch mockCreateBatchResult) }, p.2)

/-- The constant mock `SingleResult` that `get_last_single_task` attaches to
every `ready` task. -/
def readyMockSingle : SingleResult :=
  { sentiment := Sentiment.positive, confidence := 0.95,
    text := some "Sample analyzed text" }

/-- Embeds `TaskService.get_last_single_task`: latest single task of the user, with
the constant mock result attached when the task is `ready` (the stored
`sentiment`/`confidence` columns are not consulted). -/
def getLastSingleTask (s : Store) (user_id : String) : Except String DomainTask :=
  match getLastUserTask s user_id TaskType.single with
  | none => Except.error "No single task found for user"
  | some db =>
    let t := dbTaskToDomain db
    Except.ok
      (if t.status = TaskStatus.ready then
        { t with result := some (TaskResult.single readyMockSingle) }
      else t)

/-! ### Concrete fixtures used by the closed theorems and witnesses -/

/-- A template row: a queued single task of user `u` with all payload and
error columns null. -/
def baseRow : DbTask :=
  { id := 1, task_id := "t1", type := TaskType.single,
    status := TaskStatus.queued, user_id := "u", start := 0, «end» := none,
    text := some "hi", file_path := none, sentiment := none, confidence := none,
    total_reviews := none, positive := none, negative := none, neutral := none,
    positive_percentage := none, negative_percentage := none,
    neutral_percentage := none, error_code := none, error_description := none,
    created_at := 0, updated_at := 0 }

/-- A one-row store holding a queued task, for the `end`-stamping claim. -/
def c3Store : Store := ⟨[{ baseRow with task_id := "t-c3" }]⟩

/-- A queued, dwelled task created at time 1. -/
def c4TaskA : DbTask :=
  { baseRow with id := 1, task_id := "t-A", created_at := 1, updated_at := 0 }

/-- A queued, dwelled task created at time 2 (later than `c4TaskA`). -/
def c4TaskB : DbTask :=
  { baseRow with id := 2, task_id := "t-B", created_at := 2, updated_at := 0 }

/-- A store whose row order lists the younger task first: a legal table state,
since SQL ties no unordered `SELECT` to creation order. -/
def c4Store : Store := ⟨[c4TaskB, c4TaskA]⟩

/-- The same two tasks with the row order agreeing with creation order. -/
def c4SortedStore : Store := ⟨[c4TaskA, c4TaskB]⟩

/-- Formalisation of the claim's wording about `get_last`, for comparison with
the code: the task latest by the creation marker (`start`), ties broken by the
larger internal `id` (insertion order). -/
def claimLatestByStartThenId (s : Store) (user_id : String) (task_type : TaskType) :
    Option DbTask :=
  (s.rows.filter (fun t => t.user_id == user_id && t.type == task_type)).foldl
    (fun acc t =>
      match acc with
      | none => some t
      | some b =>
        if b.start < t.start ∨ (t.start = b.start ∧ b.id < t.id) then some t
        else some b) none

/-- Two single tasks of user `u5` with the same `start` and distinct ids,
inserted in id order. -/
def c5TaskA : DbTask :=
  { baseRow with id := 1, task_id := "t5-A", start := 5, user_id := "u5" }

/-- The later-inserted of the two tied tasks. -/
def c5TaskB : DbTask :=
  { baseRow with id := 2, task_id := "t5-B", start := 5, user_id := "u5" }

/-- Store holding the two tied tasks in insertion order. -/
def c5Store : Store := ⟨[c5TaskA, c5TaskB]⟩

/-- Two queued, dwelled single tasks for the failure-semantics claim. -/
def c7TaskA : DbTask := { baseRow with id := 1, task_id := "t7-A", updated_at := 0 }

/-- The second queued task of the failure-semantics store. -/
def c7TaskB : DbTask := { baseRow with id := 2, task_id := "t7-B", updated_at := 0 }

/-- Store holding the two queued tasks in row order A, B. -/
def c7Store : Store := ⟨[c7TaskA, c7TaskB]⟩

/-- A scorer that raises on the first task and succeeds on the second,
standing in for a scoring function whose failure the spec discusses. -/
def c7Score (t : DbTask) : Except String (Sentiment × ℚ) :=
  if t.task_id == "t7-A" then Except.error "scoring failed"
  else Except.ok (Sentiment.positive, 0.9)

/-- A content validator that accepts everything, used to instantiate the
batch-creation theorems at concrete inputs. -/
def cv0 : List Nat → String → String → Except String Unit :=
  fun _ _ _ => Except.ok ()

/-- A `ready` single task of user `u10` whose stored analysis columns hold a
negative sentiment with low confidence. -/
def c10Row : DbTask :=
  { baseRow with
      task_id := "t10", status := TaskStatus.ready, user_id := "u10",
      sentiment := some Sentiment.negative, confidence := some (1 / 10 : ℚ) }

/-- Store holding the stored-negative `ready` task. -/
def c10Store : Store := ⟨[c10Row]⟩

/-- The single- and batch-output payload columns are all null (the state of a
row before the worker completes it). -/
def noOutputPayload (t : DbTask) : Prop :=
  t.sentiment = none ∧ t.confidence = none ∧ t.total_reviews = none ∧
  t.positive = none ∧ t.negative = none ∧ t.neutral = none ∧
  t.positive_percentage = none ∧ t.negative_percentage = none ∧
  t.neutral_percentage = none

instance (t : DbTask) : Decidable (noOutputPayload t) := by
  unfold noOutputPayload
  infer_instance

/-- The output payload appropriate to the row's type is fully populated while
the other type's columns remain null (the state `_process_single_task` /
`_process_batch_task` write together with `ready`). -/
def fullOutputPayload (t : DbTask) : Prop :=
  (t.type = TaskType.single →
    t.sentiment.isSome = true ∧ t.confidence.isSome = true ∧
    t.total_reviews = none ∧ t.positive = none ∧ t.negative = none ∧
    t.neutral = none ∧ t.positive_percentage = none ∧
    t.negative_percentage = none ∧ t.neutral_percentage = none)
  ∧ (t.type = TaskType.batch →
    t.total_reviews.isSome = true ∧ t.positive.isSome = true ∧
    t.negative.isSome = true ∧ t.neutral.isSome = true ∧
    t.positive_percentage.isSome = true ∧ t.negative_percentage.isSome = true ∧
    t.neutral_percentage.isSome = true ∧ t.sentiment = none ∧ t.confidence = none)

instance (t : DbTask) : Decidable (fullOutputPayload t) := by
  unfold fullOutputPayload
  infer_instance

/-- The payload invariant of persisted rows: both payloads null while the
status is `accepted` or `queued`; exactly the output payload populated once
`ready`; and the `error` status never occurs — no modelled code path records
an error payload, and terminal `update_task_status` transitions die on the
`end_time` column mismatch before writing. -/
def payloadInvariant (t : DbTask) : Prop :=
  ((t.status = TaskStatus.accepted ∨ t.status = TaskStatus.queued) →
    noOutputPayload t ∧ t.error_code = none)
  ∧ (t.status = TaskStatus.ready → fullOutputPayload t ∧ t.error_code = none)
  ∧ t.status ≠ TaskStatus.error

instance (t : DbTask) : Decidable (payloadInvariant t) := by
  unfold payloadInvariant
  infer_instance

/-- Embeds `TaskService.get_last_batch_task`: latest batch task of the user,
with a mock `BatchResult` attached when the task is `ready`; the literal in
the source coincides with the one in `create_batch_task`
(`mockCreateBatchResult`). -/
def getLastBatchTask (s : Store) (user_id : String) : Except String DomainTask :=
  match getLastUserTask s user_id TaskType.batch with
  | none => Except.error "No batch task found for user"
  | some db =>
    let t := dbTaskToDomain db
    Except.ok
      (if t.status = TaskStatus.ready then
        { t with result := some (TaskResult.batch mockCreateBatchResult) }
      else t)

/-! ## Theorems -/

/-- Every row inserted by `TaskRepository.create` is appended to the store and
starts life with status `accepted`, null output/error payload columns and a
null `end`, regardless of task type and `extra_data`. -/
theorem repoCreate_spec (s : Store) (ty : TaskType) (uid : String)
    (extra : ExtraData) (uuid : String) (now : Nat) :
    (repoCreate s ty uid extra uuid now).2.rows =
        s.rows ++ [(repoCreate s ty uid extra uuid now).1]
    ∧ (repoCreate s ty uid extra uuid now).1.status = TaskStatus.accepted
    ∧ (repoCreate s ty uid extra uuid now).1.sentiment = none
    ∧ (repoCreate s ty uid extra uuid now).1.confidence = none
    ∧ (repoCreate s ty uid extra uuid now).1.error_code = none
    ∧ (repoCreate s ty uid extra uuid now).1.«end» = none
    ∧ (repoCreate s ty uid extra uuid now).1.type = ty
    ∧ (extra.file_path = none → (repoCreate s ty uid extra uuid now).1.file_path = none)
    ∧ (ty = TaskType.batch → (repoCreate s ty uid extra uuid now).1.text = none) := by
  unfold repoCreate
  dsimp only
  split
  · rename_i hc
    simp_all
  · split
    · rename_i hc
      simp_all
    · simp_all

/-- Projections of `_db_task_to_domain`: status/type/id pass through, `result`
is always null, and a row without `error_code` projects to a null `error`. -/
theorem dbTaskToDomain_fields (r : DbTask) :
    (dbTaskToDomain r).status = r.status ∧ (dbTaskToDomain r).task_id = r.task_id
    ∧ (dbTaskToDomain r).type = r.type ∧ (dbTaskToDomain r).result = none
    ∧ (r.error_code = none → (dbTaskToDomain r).error = none) := by
  refine ⟨rfl, rfl, rfl, rfl, ?_⟩
  intro h
  simp [dbTaskToDomain, h]

/-- Helper: a successful `get_last_user_task` returns a stored row of the
requested user and type. -/
theorem getLastUserTask_mem (s : Store) (uid : String) (ty : TaskType) (r : DbTask)
    (h : getLastUserTask s uid ty = some r) :
    r ∈ s.rows ∧ r.user_id = uid ∧ r.type = ty := by
  unfold getLastUserTask at h
  have hperm :
      List.Perm
        ((s.rows.filter (fun t => t.user_id == uid && t.type == ty)).insertionSort startGe)
        (s.rows.filter (fun t => t.user_id == uid && t.type == ty)) :=
    List.perm_insertionSort startGe _
  cases hsort :
      (s.rows.filter (fun t => t.user_id == uid && t.type == ty)).insertionSort startGe with
  | nil => rw [hsort] at h; exact absurd h (by simp)
  | cons a rest =>
    rw [hsort] at h hperm
    have har : a = r := by simpa using h
    subst har
    have hmem : a ∈ s.rows.filter (fun t => t.user_id == uid && t.type == ty) :=
      hperm.mem_iff.mp (List.mem_cons_self _ _)
    obtain ⟨hrow, hpred⟩ := List.mem_filter.mp hmem
    simp only [Bool.and_eq_true, beq_iff_eq] at hpred
    exact ⟨hrow, hpred.1, hpred.2⟩

/-- Helper: the payload invariant forces a null error code in every reachable
status. -/
theorem payloadInvariant_error_code_none (t : DbTask) (h : payloadInvariant t) :
    t.error_code = none := by
  obtain ⟨h1, h2, h3⟩ := h
  cases hst : t.status with
  | accepted => exact (h1 (Or.inl hst)).2
  | queued => exact (h1 (Or.inr hst)).2
  | ready => exact (h2 hst).2
  | error => exact absurd hst h3

/-- Helper: a pre-terminal row with empty payload satisfies the invariant. -/
theorem payloadInvariant_of_fresh (t : DbTask)
    (hst : t.status = TaskStatus.accepted ∨ t.status = TaskStatus.queued)
    (hno : noOutputPayload t) (herrc : t.error_code = none) :
    payloadInvariant t := by
  refine ⟨fun _ => ⟨hno, herrc⟩, fun hready => ?_, fun herror => ?_⟩
  · rcases hst with hx | hx <;> rw [hx] at hready <;> exact absurd hready (by decide)
  · rcases hst with hx | hx <;> rw [hx] at herror <;> exact absurd herror (by decide)

/-- Helper: every row inserted by the repository has all payload columns
null. -/
theorem repoCreate_row_payload (s : Store) (ty : TaskType) (uid : String)
    (extra : ExtraData) (uuid : String) (now : Nat) :
    noOutputPayload (repoCreate s ty uid extra uuid now).1 := by
  unfold repoCreate noOutputPayload
  dsimp only
  split
  · simp
  · split <;> simp

/-- Helper: a row selected by the execution pass is a stored queued row. -/
theorem mem_dwelledQueued (s : Store) (now : Nat) (t : DbTask)
    (h : t ∈ dwelledQueued s now) : t ∈ s.rows ∧ t.status = TaskStatus.queued := by
  obtain ⟨hm, hp⟩ := List.mem_filter.mp h
  simp only [Bool.and_eq_true, beq_iff_eq, decide_eq_true_eq] at hp
  exact ⟨hm, hp.1⟩

/-- Helper: the promotion pass preserves the payload invariant. -/
theorem processAcceptedTasks_inv (s : Store) (now : Nat)
    (h : ∀ r ∈ s.rows, payloadInvariant r) :
    ∀ r ∈ (processAcceptedTasks s now).rows, payloadInvariant r := by
  intro r hr
  simp only [processAcceptedTasks, List.mem_map] at hr
  obtain ⟨a, ha, rfl⟩ := hr
  have hinv := h a ha
  by_cases hacc : (a.status == TaskStatus.accepted) = true
  · rw [if_pos hacc]
    have haccp : a.status = TaskStatus.accepted := by simpa using hacc
    obtain ⟨hno, herrc⟩ := hinv.1 (Or.inl haccp)
    exact payloadInvariant_of_fresh _ (Or.inr rfl) hno herrc
  · rw [if_neg hacc]
    exact hinv

/-- Helper: processing a queued invariant row with the worker's scorer yields
a `ready` row populating exactly the output payload. -/
theorem processOneQueued_workerScore_inv (now : Nat) (t : DbTask)
    (hq : t.status = TaskStatus.queued) (hinv : payloadInvariant t) :
    ∃ t1, processOneQueued workerScore now t = Except.ok t1 ∧ payloadInvariant t1 := by
  obtain ⟨hno, herrc⟩ := hinv.1 (Or.inr hq)
  obtain ⟨hs, hc, htr, hp, hn, hne, hpp, hnp, hnep⟩ := hno
  cases ht : t.type with
  | single =>
    have hR : processOneQueued workerScore now t = Except.ok
        { t with
            status := TaskStatus.ready, «end» := some now,
            sentiment := some (mockAnalyzeSentiment t.text).1,
            confidence := some (mockAnalyzeSentiment t.text).2,
            updated_at := now } := by
      simp [processOneQueued, workerScore, ht, Except.map]
    refine ⟨_, hR,
      fun hcontra => ?_, fun _ => ⟨⟨fun _ => ?_, fun hb => ?_⟩, herrc⟩,
      fun hx => TaskStatus.noConfusion hx⟩
    · rcases hcontra with hx | hx <;> exact TaskStatus.noConfusion hx
    · exact ⟨rfl, rfl, htr, hp, hn, hne, hpp, hnp, hnep⟩
    · rw [ht] at hb
      exact absurd hb (by decide)
  | batch =>
    have hR : processOneQueued workerScore now t = Except.ok
        { t with
            status := TaskStatus.ready, «end» := some now,
            total_reviews := some mockBatchAnalysis.total_reviews,
            positive := some mockBatchAnalysis.positive,
            negative := some mockBatchAnalysis.negative,
            neutral := some mockBatchAnalysis.neutral,
            positive_percentage := some mockBatchAnalysis.positive_percentage,
            negative_percentage := some mockBatchAnalysis.negative_percentage,
            neutral_percentage := some mockBatchAnalysis.neutral_percentage,
            updated_at := now } := by
      simp [processOneQueued, workerScore, ht]
    refine ⟨_, hR,
      fun hcontra => ?_, fun _ => ⟨⟨fun hb => ?_, fun _ => ?_⟩, herrc⟩,
      fun hx => TaskStatus.noConfusion hx⟩
    · rcases hcontra with hx | hx <;> exact TaskStatus.noConfusion hx
    · rw [ht] at hb
      exact absurd hb (by decide)
    · exact ⟨rfl, rfl, rfl, rfl, rfl, rfl, rfl, hs, hc⟩

/-- Helper: committing one processed row preserves the invariant. -/
theorem applyRowUpdate_inv (acc : Store) (t1 : DbTask)
    (ht1 : payloadInvariant t1) (hacc : ∀ r ∈ acc.rows, payloadInvariant r) :
    ∀ r ∈ (applyRowUpdate acc t1).rows, payloadInvariant r := by
  intro r hr
  simp only [applyRowUpdate, List.mem_map] at hr
  obtain ⟨a, ha, rfl⟩ := hr
  by_cases hid : (a.id == t1.id) = true
  · rw [if_pos hid]
    exact ht1
  · rw [if_neg hid]
    exact hacc a ha

/-- Helper: the worker's session loop, run with its own scorer, always
commits and preserves the invariant. -/
theorem runQueued_workerScore_inv (now : Nat) :
    ∀ (ts : List DbTask) (acc : Store),
      (∀ t ∈ ts, t.status = TaskStatus.queued ∧ payloadInvariant t) →
      (∀ r ∈ acc.rows, payloadInvariant r) →
      ∃ s1, runQueued workerScore now ts acc = Except.ok s1 ∧
        ∀ r ∈ s1.rows, payloadInvariant r := by
  intro ts
  induction ts with
  | nil =>
    intro acc _ hacc
    exact ⟨acc, rfl, hacc⟩
  | cons t rest ih =>
    intro acc hts hacc
    obtain ⟨hq, hinv⟩ := hts t (List.mem_cons_self _ _)
    obtain ⟨t1, ht1, ht1inv⟩ := processOneQueued_workerScore_inv now t hq hinv
    obtain ⟨s1, hs1, hs1inv⟩ := ih (applyRowUpdate acc t1)
      (fun u hu => hts u (List.mem_cons_of_mem _ hu))
      (applyRowUpdate_inv acc t1 ht1inv hacc)
    refine ⟨s1, ?_, hs1inv⟩
    simp only [runQueued, ht1]
    exact hs1

/-- Helper: one full worker tick preserves the payload invariant. -/
theorem workerTick_inv (s : Store) (now : Nat)
    (h : ∀ r ∈ s.rows, payloadInvariant r) :
    ∀ r ∈ (workerTick s now).rows, payloadInvariant r := by
  have h1 := processAcceptedTasks_inv s now h
  have hts : ∀ t ∈ dwelledQueued (processAcceptedTasks s now) now,
      t.status = TaskStatus.queued ∧ payloadInvariant t := by
    intro t ht
    obtain ⟨hm, hq⟩ := mem_dwelledQueued _ now t ht
    exact ⟨hq, h1 t hm⟩
  obtain ⟨s1, hs1, hs1inv⟩ :=
    runQueued_workerScore_inv now (dwelledQueued (processAcceptedTasks s now) now)
      (processAcceptedTasks s now) hts h1
  intro r hr
  have heq : workerTick s now = s1 := by
    simp [workerTick, processQueuedTasks, processQueuedTasksWith, hs1]
  rw [heq] at hr
  exact hs1inv r hr

/-- Helper: `update_task_status` preserves the payload invariant (row ids are
unique, as the primary key guarantees): invalid transitions, terminal targets
and error-payload updates leave the store unchanged, and the one surviving
update — `accepted → queued` with no error payload — only requeues a fresh
row. -/
theorem updateTaskStatus_inv (s : Store) (tid : String) (st : TaskStatus)
    (err : Option TaskError) (now : Nat)
    (hnd : (s.rows.map (fun t => t.id)).Nodup)
    (h : ∀ r ∈ s.rows, payloadInvariant r) :
    ∀ r ∈ (updateTaskStatus s tid st err now).2.rows, payloadInvariant r := by
  cases hdb : getByTaskId s tid with
  | none =>
    intro r hr
    simp only [updateTaskStatus, hdb] at hr
    exact h r hr
  | some db =>
    by_cases hval : isValidStatusTransition db.status st = true
    case neg =>
      intro r hr
      simp only [updateTaskStatus, hdb] at hr
      rw [if_neg hval] at hr
      exact h r hr
    case pos =>
      by_cases hterm : st = TaskStatus.ready ∨ st = TaskStatus.error
      · intro r hr
        cases err with
        | some e =>
          simp [updateTaskStatus, hdb, hval, hterm, repoUpdate, tasksColumns] at hr
          exact h r hr
        | none =>
          simp [updateTaskStatus, hdb, hval, hterm, repoUpdate, tasksColumns] at hr
          exact h r hr
      · have hacc : db.status = TaskStatus.accepted ∧ st = TaskStatus.queued := by
          cases hs1 : db.status <;> cases hs2 : st <;>
            simp_all [isValidStatusTransition, validTransitions]
        obtain ⟨hdbacc, hstq⟩ := hacc
        subst hstq
        have hdbmem : db ∈ s.rows := by
          unfold getByTaskId at hdb
          exact List.mem_of_find?_eq_some hdb
        cases err with
        | some e =>
          intro r hr
          simp [updateTaskStatus, hdb, hval, hterm, repoUpdate, tasksColumns] at hr
          exact h r hr
        | none =>
          cases hfind : s.rows.find? (fun t => t.id == db.id) with
          | none =>
            intro r hr
            simp [updateTaskStatus, hdb, hval, hterm, repoUpdate, tasksColumns,
              hfind] at hr
            exact h r hr
          | some t0 =>
            have ht0mem : t0 ∈ s.rows := List.mem_of_find?_eq_some hfind
            have ht0id : t0.id = db.id := by
              have hx := List.find?_some hfind
              simpa using hx
            have ht0db : t0 = db :=
              List.inj_on_of_nodup_map hnd ht0mem hdbmem ht0id
            subst ht0db
            intro r hr
            simp only [updateTaskStatus, hdb, hval, hterm, repoUpdate,
              tasksColumns, hfind, if_true, List.foldl, applyColumn,
              List.mem_map] at hr
            simp at hr
            obtain ⟨a, ha, rfl⟩ := hr
            by_cases hid : a.id = t0.id
            · rw [if_pos hid]
              have hfresh := (h t0 ht0mem).1 (Or.inl hdbacc)
              exact payloadInvariant_of_fresh _ (Or.inr rfl) hfresh.1 hfresh.2
            · rw [if_neg hid]
              exact h a ha

/-- Helper: the single-task view of an invariant-satisfying store shows no
payload before terminal and exactly the mock result for `ready`. -/
theorem getLastSingleTask_view (s : Store) (uid : String) (t : DomainTask)
    (hinvs : ∀ r ∈ s.rows, payloadInvariant r)
    (h : getLastSingleTask s uid = Except.ok t) :
    ((t.status = TaskStatus.accepted ∨ t.status = TaskStatus.queued) →
      t.result = none ∧ t.error = none)
    ∧ (t.status = TaskStatus.ready →
      t.result = some (TaskResult.single readyMockSingle) ∧ t.error = none) := by
  cases hdb : getLastUserTask s uid TaskType.single with
  | none => simp [getLastSingleTask, hdb] at h
  | some db =>
    have hdbmem := (getLastUserTask_mem s uid TaskType.single db hdb).1
    have herrc := payloadInvariant_error_code_none db (hinvs db hdbmem)
    have herr : (dbTaskToDomain db).error = none := by
      simp [dbTaskToDomain, herrc]
    simp only [getLastSingleTask, hdb, Except.ok.injEq] at h
    by_cases hst : (dbTaskToDomain db).status = TaskStatus.ready
    · rw [if_pos hst] at h
      subst h
      refine ⟨fun hcontra => ?_, fun _ => ⟨rfl, herr⟩⟩
      rcases hcontra with hx | hx <;> exact absurd (hst.symm.trans hx) (by decide)
    · rw [if_neg hst] at h
      subst h
      exact ⟨fun _ => ⟨rfl, herr⟩, fun hx => absurd hx hst⟩

/-- Helper: the batch-task view of an invariant-satisfying store shows no
payload before terminal and exactly the mock result for `ready`. -/
theorem getLastBatchTask_view (s : Store) (uid : String) (t : DomainTask)
    (hinvs : ∀ r ∈ s.rows, payloadInvariant r)
    (h : getLastBatchTask s uid = Except.ok t) :
    ((t.status = TaskStatus.accepted ∨ t.status = TaskStatus.queued) →
      t.result = none ∧ t.error = none)
    ∧ (t.status = TaskStatus.ready →
      t.result = some (TaskResult.batch mockCreateBatchResult) ∧ t.error = none) := by
  cases hdb : getLastUserTask s uid TaskType.batch with
  | none => simp [getLastBatchTask, hdb] at h
  | some db =>
    have hdbmem := (getLastUserTask_mem s uid TaskType.batch db hdb).1
    have herrc := payloadInvariant_error_code_none db (hinvs db hdbmem)
    have herr : (dbTaskToDomain db).error = none := by
      simp [dbTaskToDomain, herrc]
    simp only [getLastBatchTask, hdb, Except.ok.injEq] at h
    by_cases hst : (dbTaskToDomain db).status = TaskStatus.ready
    · rw [if_pos hst] at h
      subst h
      refine ⟨fun hcontra => ?_, fun _ => ⟨rfl, herr⟩⟩
      rcases hcontra with hx | hx <;> exact absurd (hst.symm.trans hx) (by decide)
    · rw [if_neg hst] at h
      subst h
      exact ⟨fun _ => ⟨rfl, herr⟩, fun hx => absurd hx hst⟩

/-- C1 (counterexample): the claim says the Task returned by
`create_single_task` (status `accepted`) carries no result payload; on the
concrete submission of text "hello" the returned task has status `accepted`
AND a populated mock result, so the claim as stated is false. -/
theorem c1_counterexample :
    ((createSingleTask ⟨[]⟩ "user1" "hello" 0 "id-1").1.toOption.map
        (fun t => (t.status, t.result))) =
      some (TaskStatus.accepted,
        some (TaskResult.single
          { sentiment := Sentiment.positive, confidence := 0.95,
            text := some "hello" })) := by
  rfl

/-- C1 (amended): (i) every successful `create_single_task` returns a task
with status `accepted`, a null error payload and a populated mock
`SingleResult` (positive, 0.95, the validated text), while the persisted row
starts with both payloads null; (ii) likewise `create_batch_task` with its
mock `BatchResult`; (iii) the payload invariant — both payloads null while a
row is `accepted`/`queued`, exactly the output payload populated once
`ready`, the `error` status unreachable — is preserved by the worker tick;
(iv) and by `update_task_status` (under primary-key uniqueness); (v)/(vi) the
polled `get_last` views of an invariant store carry no payload for
accepted/queued tasks and exactly the mock result payload, with a null error
payload, for `ready` tasks.  Only the "carries no result payload at creation"
part of the claim fails, per the counterexample. -/
theorem c1_create_attaches_mock_result :
    (∀ (s : Store) (uid text : String) (now : Nat) (uuid : String),
      (createSingleTask s uid text now uuid).1.isOk = true →
      ∃ t v, (createSingleTask s uid text now uuid).1 = Except.ok t ∧
        t.status = TaskStatus.accepted ∧ t.error = none ∧
        t.result = some (TaskResult.single
          { sentiment := Sentiment.positive, confidence := 0.95, text := some v }) ∧
        ∃ row, (createSingleTask s uid text now uuid).2.rows = s.rows ++ [row] ∧
          row.status = TaskStatus.accepted ∧ payloadInvariant row ∧ row.«end» = none)
    ∧ (∀ (cv : List Nat → String → String → Except String Unit) (s : Store)
        (uid : String) (content : List Nat) (filename : String) (now : Nat)
        (uuid : String),
      (createBatchTask cv s uid content filename now uuid).1.isOk = true →
      ∃ t, (createBatchTask cv s uid content filename now uuid).1 = Except.ok t ∧
        t.status = TaskStatus.accepted ∧ t.error = none ∧
        t.result = some (TaskResult.batch mockCreateBatchResult) ∧
        ∃ row, (createBatchTask cv s uid content filename now uuid).2.rows = s.rows ++ [row] ∧
          row.status = TaskStatus.accepted ∧ payloadInvariant row ∧ row.«end» = none)
    ∧ (∀ (s : Store) (now : Nat),
      (∀ r ∈ s.rows, payloadInvariant r) →
      ∀ r ∈ (workerTick s now).rows, payloadInvariant r)
    ∧ (∀ (s : Store) (tid : String) (st : TaskStatus) (err : Option TaskError)
        (now : Nat),
      (s.rows.map (fun t => t.id)).Nodup →
      (∀ r ∈ s.rows, payloadInvariant r) →
      ∀ r ∈ (updateTaskStatus s tid st err now).2.rows, payloadInvariant r)
    ∧ (∀ (s : Store) (uid : String) (t : DomainTask),
      (∀ r ∈ s.rows, payloadInvariant r) →
      getLastSingleTask s uid = Except.ok t →
      ((t.status = TaskStatus.accepted ∨ t.status = TaskStatus.queued) →
        t.result = none ∧ t.error = none)
      ∧ (t.status = TaskStatus.ready →
        t.result = some (TaskResult.single readyMockSingle) ∧ t.error = none))
    ∧ (∀ (s : Store) (uid : String) (t : DomainTask),
      (∀ r ∈ s.rows, payloadInvariant r) →
      getLastBatchTask s uid = Except.ok t →
      ((t.status = TaskStatus.accepted ∨ t.status = TaskStatus.queued) →
        t.result = none ∧ t.error = none)
      ∧ (t.status = TaskStatus.ready →
        t.result = some (TaskResult.batch mockCreateBatchResult) ∧ t.error = none)) := by
  refine ⟨?_, ?_, workerTick_inv, updateTaskStatus_inv,
    fun s uid t hinvs h => getLastSingleTask_view s uid t hinvs h,
    fun s uid t hinvs h => getLastBatchTask_view s uid t hinvs h⟩
  · intro s uid text now uuid h
    by_cases h1 : uid.length = 0 ∨ 255 < uid.length
    · simp [createSingleTask, h1, Except.isOk, Except.toBool] at h
    · cases hu : validateUserId uid with
      | error m => simp [createSingleTask, h1, hu, Except.isOk, Except.toBool] at h
      | ok uu =>
        by_cases h2 : text.length = 0 ∨ 512 < text.length
        · simp [createSingleTask, h1, hu, h2, Except.isOk, Except.toBool] at h
        · cases hv : validateText text with
          | error e => simp [createSingleTask, h1, hu, h2, hv, Except.isOk, Except.toBool] at h
          | ok v =>
            by_cases h3 : 512 < v.length
            · simp [createSingleTask, h1, hu, h2, hv, h3, Except.isOk, Except.toBool] at h
            · have hc : createSingleTask s uid text now uuid =
                  (Except.ok
                    { dbTaskToDomain (repoCreate s TaskType.single uu
                        { text := some v } uuid now).1 with
                      result := some (TaskResult.single
                        { sentiment := Sentiment.positive, confidence := 0.95,
                          text := some v }) },
                   (repoCreate s TaskType.single uu { text := some v } uuid now).2) := by
                simp [createSingleTask, h1, hu, h2, hv, h3]
              obtain ⟨hrows, hst, hsent, hconf, herrc, hend, -⟩ :=
                repoCreate_spec s TaskType.single uu { text := some v } uuid now
              refine ⟨_, v, by rw [hc], ?_, ?_, rfl,
                (repoCreate s TaskType.single uu { text := some v } uuid now).1,
                by rw [hc]; exact hrows, hst,
                payloadInvariant_of_fresh _ (Or.inl hst)
                  (repoCreate_row_payload s TaskType.single uu { text := some v } uuid now)
                  herrc, hend⟩
              · simpa [dbTaskToDomain] using hst
              · simp [dbTaskToDomain, herrc]
  · intro cv s uid content filename now uuid h
    cases hu : validateUserId uid with
    | error m => simp [createBatchTask, hu, Except.isOk, Except.toBool] at h
    | ok uu =>
      by_cases h1 : maxBatchFileSize ≤ content.length
      · simp [createBatchTask, hu, h1, Except.isOk, Except.toBool] at h
      · by_cases h2 : ("." ++ fileExt filename) ∈ validExtensions
        case neg => simp [createBatchTask, hu, h1, h2, Except.isOk, Except.toBool] at h
        case pos =>
          cases hcv : cv content (fileExt filename) filename with
          | error m => simp [createBatchTask, hu, h1, h2, hcv, Except.isOk, Except.toBool] at h
          | ok u =>
            have hc : createBatchTask cv s uid content filename now uuid =
                (Except.ok
                  { dbTaskToDomain (repoCreate s TaskType.batch uu
                      { filename := some filename, file_size := some content.length,
                        file_type := some (fileExt filename) } uuid now).1 with
                    result := some (TaskResult.batch mockCreateBatchResult) },
                 (repoCreate s TaskType.batch uu
                    { filename := some filename, file_size := some content.length,
                      file_type := some (fileExt filename) } uuid now).2) := by
              simp [createBatchTask, hu, h1, h2, hcv]
            obtain ⟨hrows, hst, hsent, hconf, herrc, hend, -⟩ :=
              repoCreate_spec s TaskType.batch uu
                { filename := some filename, file_size := some content.length,
                  file_type := some (fileExt filename) } uuid now
            refine ⟨_, by rw [hc], ?_, ?_, rfl,
              (repoCreate s TaskType.batch uu
                { filename := some filename, file_size := some content.length,
                  file_type := some (fileExt filename) } uuid now).1,
              by rw [hc]; exact hrows, hst,
              payloadInvariant_of_fresh _ (Or.inl hst)
                (repoCreate_row_payload s TaskType.batch uu
                  { filename := some filename, file_size := some content.length,
                    file_type := some (fileExt filename) } uuid now)
                herrc, hend⟩
            · simpa [dbTaskToDomain] using hst
            · simp [dbTaskToDomain, herrc]

/-- C1 (witness): the amended theorem applied to concrete inputs — a concrete
single submission, a worker tick over a store of queued tasks, a terminal
`update_task_status` call on a queued store, and the polled view of a `ready`
single task with stored negative sentiment. -/
theorem c1_witness :
    (∃ t v, (createSingleTask ⟨[]⟩ "user1" "good stuff" 3 "id-1w").1 = Except.ok t ∧
      t.status = TaskStatus.accepted ∧ t.error = none ∧
      t.result = some (TaskResult.single
        { sentiment := Sentiment.positive, confidence := 0.95, text := some v }) ∧
      ∃ row, (createSingleTask ⟨[]⟩ "user1" "good stuff" 3 "id-1w").2.rows =
          ([] : List DbTask) ++ [row] ∧
        row.status = TaskStatus.accepted ∧ payloadInvariant row ∧ row.«end» = none)
    ∧ (∀ r ∈ (workerTick c4SortedStore 10).rows, payloadInvariant r)
    ∧ (∀ r ∈ (updateTaskStatus c4SortedStore "t-A" TaskStatus.ready none 20).2.rows,
        payloadInvariant r)
    ∧ (∃ t, getLastSingleTask c10Store "u10" = Except.ok t ∧
        (t.status = TaskStatus.ready →
          t.result = some (TaskResult.single readyMockSingle) ∧ t.error = none)) := by
  refine ⟨c1_create_attaches_mock_result.1 ⟨[]⟩ "user1" "good stuff" 3 "id-1w" (by rfl),
    c1_create_attaches_mock_result.2.2.1 c4SortedStore 10 (by decide),
    c1_create_attaches_mock_result.2.2.2.1 c4SortedStore "t-A" TaskStatus.ready none 20
      (by decide) (by decide),
    ⟨_, rfl, (c1_create_attaches_mock_result.2.2.2.2.1 c10Store "u10" _
      (by decide) rfl).2⟩⟩

/-- C3: the claim says every `update_task_status` transition to `ready`/`error`
stamps the row's `end`.  Evaluating the code at a queued task moved to `ready`:
the update dict's `end_time` key is not a column of the `tasks` table (the
column is `end`), so the update raises, the store is unchanged, and the row's
`end` remains null — `end` is never stamped by `update_task_status`. -/
theorem c3_terminal_update_never_stamps_end :
    (updateTaskStatus c3Store "t-c3" TaskStatus.ready none 10).1 =
      Except.error (UpdateErr.dbError "Unconsumed column names: end_time")
    ∧ (updateTaskStatus c3Store "t-c3" TaskStatus.ready none 10).2 = c3Store
    ∧ ((getByTaskId c3Store "t-c3").map (fun t => t.«end»)) = some none :=
  ⟨rfl, rfl, rfl⟩

/-- C4 (counterexample): two queued tasks past the dwell threshold, with
`c4TaskA` created strictly before `c4TaskB`; in the (legal) table state whose
row order lists B first, the worker's execution pass — whose `SELECT` has no
`ORDER BY` — performs B's transition before A's, so `t1`-before-`t2`
processing is not guaranteed. -/
theorem c4_counterexample :
    c4TaskA.created_at < c4TaskB.created_at
    ∧ c4TaskA.status = TaskStatus.queued ∧ c4TaskB.status = TaskStatus.queued
    ∧ c4TaskA.updated_at + 5 ≤ 10 ∧ c4TaskB.updated_at + 5 ≤ 10
    ∧ processQueuedOrder c4Store 10 = ["t-B", "t-A"] := by
  refine ⟨by decide, rfl, rfl, by decide, by decide, by decide⟩

/-- C4 (amended): the repository's `get_tasks_by_status` does return tasks in
creation order (sorted by `created_at`), but the worker's own execution pass
processes the dwelled queued tasks in the database's row-return order: it is
creation-ordered only when the row order already is. -/
theorem c4_repo_scan_sorted_worker_follows_row_order :
    (∀ (s : Store) (st : TaskStatus) (lim : Nat),
      (getTasksByStatus s st lim).Pairwise createdLe)
    ∧ (∀ (s : Store) (now : Nat), s.rows.Pairwise createdLe →
      (dwelledQueued s now).Pairwise createdLe)
    ∧ (∀ (s : Store) (now : Nat),
      processQueuedOrder s now = (dwelledQueued s now).map (fun t => t.task_id)) := by
  refine ⟨?_, ?_, ?_⟩
  · intro s st lim
    have hs : List.Sorted createdLe
        ((s.rows.filter (fun t => t.status == st)).insertionSort createdLe) :=
      List.sorted_insertionSort createdLe _
    exact List.Pairwise.sublist (List.take_sublist _ _) hs
  · intro s now hp
    exact List.Pairwise.filter _ hp
  · intro s now
    rfl

/-- C4 (witness): the row-order conjunct applied to the store whose row order
agrees with creation order. -/
theorem c4_witness :
    (dwelledQueued c4SortedStore 10).Pairwise createdLe :=
  c4_repo_scan_sorted_worker_follows_row_order.2.1 c4SortedStore 10 (by decide)

/-- C5 (counterexample): two tasks of the same user and type tied on `start`,
inserted in id order A then B.  The claim specifies the tie is broken by the
larger internal id (so B); the repository query orders by `start` alone and
returns A — `get_last` does not implement the claimed id tie-break. -/
theorem c5_counterexample :
    c5TaskA.start = c5TaskB.start ∧ c5TaskA.id < c5TaskB.id
    ∧ (getLastUserTask c5Store "u5" TaskType.single).map (fun t => t.task_id) =
        some "t5-A"
    ∧ (claimLatestByStartThenId c5Store "u5" TaskType.single).map (fun t => t.task_id) =
        some "t5-B" := by
  refine ⟨rfl, by decide, by decide, by decide⟩

/-- C5 (amended): `get_last_user_task` returns a task of the requested user and
type whose `start` is maximal among them (ties resolved by the scan order, not
by id); being a function of the store, repeated calls on an unchanged store
return the same task. -/
theorem c5_get_last_returns_max_start :
    ∀ (s : Store) (uid : String) (ty : TaskType) (r : DbTask),
      getLastUserTask s uid ty = some r →
      r ∈ s.rows ∧ r.user_id = uid ∧ r.type = ty ∧
        ∀ t ∈ s.rows, t.user_id = uid → t.type = ty → t.start ≤ r.start := by
  intro s uid ty r h
  unfold getLastUserTask at h
  have hperm :
      List.Perm
        ((s.rows.filter (fun t => t.user_id == uid && t.type == ty)).insertionSort startGe)
        (s.rows.filter (fun t => t.user_id == uid && t.type == ty)) :=
    List.perm_insertionSort startGe _
  have hsorted : List.Sorted startGe
      ((s.rows.filter (fun t => t.user_id == uid && t.type == ty)).insertionSort startGe) :=
    List.sorted_insertionSort startGe _
  cases hsort :
      (s.rows.filter (fun t => t.user_id == uid && t.type == ty)).insertionSort startGe with
  | nil => rw [hsort] at h; exact absurd h (by simp)
  | cons a rest =>
    rw [hsort] at h hperm hsorted
    have har : a = r := by simpa using h
    subst har
    have hmem : a ∈ s.rows.filter (fun t => t.user_id == uid && t.type == ty) :=
      hperm.mem_iff.mp (List.mem_cons_self _ _)
    obtain ⟨hrow, hpred⟩ := List.mem_filter.mp hmem
    simp only [Bool.and_eq_true, beq_iff_eq] at hpred
    refine ⟨hrow, hpred.1, hpred.2, ?_⟩
    intro t ht hu hty
    have htl : t ∈ s.rows.filter (fun t => t.user_id == uid && t.type == ty) :=
      List.mem_filter.mpr ⟨ht, by simp [hu, hty]⟩
    have htc : t ∈ a :: rest := hperm.mem_iff.mpr htl
    rcases List.mem_cons.mp htc with hte | hte
    · exact hte ▸ Nat.le_refl _
    · exact List.rel_of_sorted_cons hsorted t hte

/-- C5 (witness): the amended theorem applied to the tied store; the returned
task `c5TaskA` belongs to the user and is start-maximal. -/
theorem c5_witness :
    c5TaskA ∈ c5Store.rows ∧ c5TaskA.user_id = "u5" ∧ c5TaskA.type = TaskType.single ∧
      ∀ t ∈ c5Store.rows, t.user_id = "u5" → t.type = TaskType.single →
        t.start ≤ c5TaskA.start :=
  c5_get_last_returns_max_start c5Store "u5" TaskType.single c5TaskA (by decide)

/-- Helper: stripping shortens a character list. -/
theorem stripList_length_le (l : List Char) : (stripList l).length ≤ l.length := by
  unfold stripList
  rw [List.length_reverse]
  calc ((l.dropWhile isPySpace).reverse.dropWhile isPySpace).length
      ≤ (l.dropWhile isPySpace).reverse.length :=
        (List.dropWhile_sublist _).length_le
    _ = (l.dropWhile isPySpace).length := List.length_reverse _
    _ ≤ l.length := (List.dropWhile_sublist _).length_le

/-- Helper: `str.strip` does not lengthen a string. -/
theorem pyStrip_length_le (s : String) : (pyStrip s).length ≤ s.length :=
  stripList_length_le s.data

/-- Helper: removing null bytes does not lengthen a string. -/
theorem removeNulls_length_le (s : String) : (removeNulls s).length ≤ s.length :=
  List.length_filter_le _ _

/-- Helper: what a successful `validate_text` guarantees: the returned value is
the stripped null-free text, and none of the three rejection conditions held. -/
theorem validateText_ok_spec (v w : String) (h : validateText v = Except.ok w) :
    w = pyStrip (removeNulls v) ∧ ¬ pyStrip v = "" ∧
      findDangerousText (lowerPy (removeNulls v)) = none ∧
      ¬ (pyStrip (removeNulls v)).length = 0 := by
  by_cases h1 : pyStrip v = ""
  · simp [validateText, h1] at h
  · cases hf : findDangerousText (lowerPy (removeNulls v)) with
    | some p => simp [validateText, h1, hf] at h
    | none =>
      by_cases h2 : (pyStrip (removeNulls v)).length = 0
      · simp [validateText, h1, hf, h2] at h
      · simp [validateText, h1, hf, h2] at h
        exact ⟨h.symm, h1, rfl, h2⟩

/-- C6 (counterexample): the claim says a text containing a null byte fails
validation and creates no Task; submitting "a\x00b" instead succeeds — the
null byte is silently removed and a Task is created with the sanitized text. -/
theorem c6_counterexample :
    ((createSingleTask ⟨[]⟩ "user1" "a\x00b" 0 "id-c6").1.toOption.map
        (fun t => (t.status, t.result))) =
      some (TaskStatus.accepted,
        some (TaskResult.single
          { sentiment := Sentiment.positive, confidence := 0.95, text := some "ab" }))
    ∧ (createSingleTask ⟨[]⟩ "user1" "a\x00b" 0 "id-c6").2.rows.length = 1 := by
  exact ⟨rfl, rfl⟩

/-- C6 (amended): with a valid user id, single-task submission fails (and then
persists nothing) exactly when the text is empty, longer than 512 characters,
whitespace-only, contains a dangerous pattern after null bytes are removed, or
is empty after null-byte removal and stripping; null bytes themselves are
stripped, not rejected.  Every passing submission appends exactly one row with
status `accepted`. -/
theorem c6_validation_characterization :
    ∀ (s : Store) (uid text : String) (now : Nat) (uuid : String),
      ¬(uid.length = 0 ∨ 255 < uid.length) →
      (∃ u2, validateUserId uid = Except.ok u2) →
      (((createSingleTask s uid text now uuid).1.isOk = false ↔
        (text.length = 0 ∨ 512 < text.length ∨ pyStrip text = "" ∨
          (findDangerousText (lowerPy (removeNulls text))).isSome = true ∨
          (pyStrip (removeNulls text)).length = 0))
      ∧ ((createSingleTask s uid text now uuid).1.isOk = false →
          (createSingleTask s uid text now uuid).2 = s)
      ∧ ((createSingleTask s uid text now uuid).1.isOk = true →
          ∃ row, (createSingleTask s uid text now uuid).2.rows = s.rows ++ [row] ∧
            row.status = TaskStatus.accepted)) := by
  intro s uid text now uuid h1 hu
  obtain ⟨u2, hu⟩ := hu
  by_cases h2 : text.length = 0 ∨ 512 < text.length
  · refine ⟨?_, ?_, ?_⟩
    · simp [createSingleTask, h1, hu, h2, Except.isOk, Except.toBool]
      tauto
    · intro _
      simp [createSingleTask, h1, hu, h2]
    · intro hk
      simp [createSingleTask, h1, hu, h2, Except.isOk, Except.toBool] at hk
  · cases hv : validateText text with
    | error e =>
      have hbad : pyStrip text = "" ∨
          (findDangerousText (lowerPy (removeNulls text))).isSome = true ∨
          (pyStrip (removeNulls text)).length = 0 := by
        by_cases hb1 : pyStrip text = ""
        · exact Or.inl hb1
        · cases hf : findDangerousText (lowerPy (removeNulls text)) with
          | some p => exact Or.inr (Or.inl (by simp [hf]))
          | none =>
            by_cases hb2 : (pyStrip (removeNulls text)).length = 0
            · exact Or.inr (Or.inr hb2)
            · simp [validateText, hb1, hf, hb2] at hv
      refine ⟨?_, ?_, ?_⟩
      · simp [createSingleTask, h1, hu, h2, hv, Except.isOk, Except.toBool]
        tauto
      · intro _
        simp [createSingleTask, h1, hu, h2, hv]
      · intro hk
        simp [createSingleTask, h1, hu, h2, hv, Except.isOk, Except.toBool] at hk
    | ok v =>
      obtain ⟨hw, hg1, hg2, hg3⟩ := validateText_ok_spec text v hv
      have hlen : ¬ 512 < v.length := by
        have hv1 : v.length ≤ text.length := by
          rw [hw]
          exact Nat.le_trans (pyStrip_length_le _) (removeNulls_length_le _)
        have : text.length ≤ 512 := by
          rcases Nat.lt_or_ge 512 text.length with hlt | hge
          · exact absurd (Or.inr hlt) h2
          · exact hge
        omega
      have hc : createSingleTask s uid text now uuid =
          (Except.ok
            { dbTaskToDomain (repoCreate s TaskType.single u2
                { text := some v } uuid now).1 with
              result := some (TaskResult.single
                { sentiment := Sentiment.positive, confidence := 0.95,
                  text := some v }) },
           (repoCreate s TaskType.single u2 { text := some v } uuid now).2) := by
        simp [createSingleTask, h1, hu, h2, hv, hlen]
      obtain ⟨hrows, hst, -⟩ :=
        repoCreate_spec s TaskType.single u2 { text := some v } uuid now
      refine ⟨?_, ?_, ?_⟩
      · rw [hc]
        simp only [Except.isOk, Except.toBool]
        constructor
        · intro hfalse
          exact absurd hfalse (by simp)
        · intro hr
          rcases hr with hr | hr | hr | hr | hr
          · exact absurd (Or.inl hr) h2
          · exact absurd (Or.inr hr) h2
          · exact absurd hr hg1
          · rw [hg2] at hr; exact absurd hr (by simp)
          · exact absurd hr hg3
      · intro hfalse
        rw [hc] at hfalse
        simp [Except.isOk, Except.toBool] at hfalse
      · intro _
        exact ⟨(repoCreate s TaskType.single u2 { text := some v } uuid now).1,
          by rw [hc]; exact hrows, hst⟩

/-- C6 (witness): the characterization applied to the whitespace-only text
" \t": nonempty and under-length, yet rejected with nothing persisted. -/
theorem c6_witness :
    (((createSingleTask ⟨[]⟩ "user1" " \t" 0 "id-6w").1.isOk = false ↔
      (" \t".length = 0 ∨ 512 < " \t".length ∨ pyStrip " \t" = "" ∨
        (findDangerousText (lowerPy (removeNulls " \t"))).isSome = true ∨
        (pyStrip (removeNulls " \t")).length = 0))
    ∧ ((createSingleTask ⟨[]⟩ "user1" " \t" 0 "id-6w").1.isOk = false →
        (createSingleTask ⟨[]⟩ "user1" " \t" 0 "id-6w").2 = ⟨[]⟩)
    ∧ ((createSingleTask ⟨[]⟩ "user1" " \t" 0 "id-6w").1.isOk = true →
        ∃ row, (createSingleTask ⟨[]⟩ "user1" " \t" 0 "id-6w").2.rows =
            ([] : List DbTask) ++ [row] ∧
          row.status = TaskStatus.accepted)) :=
  c6_validation_characterization ⟨[]⟩ "user1" " \t" 0 "id-6w" (by decide)
    ⟨"user1", by rfl⟩

/-- Helper: the mock worker's own per-task processing is total. -/
theorem processOneQueued_workerScore_isOk (now : Nat) (t : DbTask) :
    (processOneQueued workerScore now t).isOk = true := by
  cases ht : t.type <;>
    simp [processOneQueued, workerScore, ht, Except.isOk, Except.toBool, Except.map]

/-- Helper: if processing of some selected task raises, the session loop
raises (whatever updates were already staged). -/
theorem runQueued_error_of_mem (score : DbTask → Except String (Sentiment × ℚ))
    (now : Nat) :
    ∀ (ts : List DbTask) (acc : Store),
      (∃ t ∈ ts, (processOneQueued score now t).isOk = false) →
      ∃ e, runQueued score now ts acc = Except.error e := by
  intro ts
  induction ts with
  | nil =>
    intro acc h
    simp at h
  | cons t rest ih =>
    intro acc h
    cases hp : processOneQueued score now t with
    | error e => exact ⟨e, by simp [runQueued, hp]⟩
    | ok t1 =>
      rcases h with ⟨u, hu, hbad⟩
      rcases List.mem_cons.mp hu with rfl | hmem
      · rw [hp] at hbad
        simp [Except.isOk, Except.toBool] at hbad
      · have hrec := ih (applyRowUpdate acc t1) ⟨u, hmem, hbad⟩
        simpa [runQueued, hp] using hrec

/-- C7 (counterexample): two dwelled queued tasks A, B in row order, with a
scorer that raises on A.  The claim says the failure is recorded on A as
status `error` with an error code, and B is still processed; instead the whole
pass is rolled back: the store is unchanged, B stays `queued`, and A carries
no error code. -/
theorem c7_counterexample :
    processQueuedTasksWith c7Score c7Store 10 = c7Store
    ∧ (getByTaskId (processQueuedTasksWith c7Score c7Store 10) "t7-B").map
        (fun t => t.status) = some TaskStatus.queued
    ∧ (getByTaskId (processQueuedTasksWith c7Score c7Store 10) "t7-A").map
        (fun t => t.error_code) = some none := by
  refine ⟨by decide, by decide, by decide⟩

/-- C7 (amended): a scoring failure is caught per pass, not per task — the
session is rolled back, so no task is marked `error` and the remaining tasks
of the pass are not processed that tick (first conjunct); the worker's own
scorer is total, so its passes never abort and the polling loop keeps running
(second conjunct). -/
theorem c7_pass_rolls_back_on_failure :
    (∀ (score : DbTask → Except String (Sentiment × ℚ)) (s : Store) (now : Nat),
      (∃ t ∈ dwelledQueued s now, (processOneQueued score now t).isOk = false) →
      processQueuedTasksWith score s now = s)
    ∧ (∀ (ts : List DbTask) (acc : Store) (now : Nat),
      (runQueued workerScore now ts acc).isOk = true) := by
  constructor
  · intro score s now h
    obtain ⟨e, he⟩ := runQueued_error_of_mem score now (dwelledQueued s now) s h
    simp [processQueuedTasksWith, he]
  · intro ts
    induction ts with
    | nil =>
      intro acc now
      simp [runQueued, Except.isOk, Except.toBool]
    | cons t rest ih =>
      intro acc now
      cases hp : processOneQueued workerScore now t with
      | error e =>
        have hok := processOneQueued_workerScore_isOk now t
        rw [hp] at hok
        simp [Except.isOk, Except.toBool] at hok
      | ok t1 =>
        simpa [runQueued, hp] using ih (applyRowUpdate acc t1) now

/-- C7 (witness): the rollback conjunct applied to the concrete failing pass. -/
theorem c7_witness :
    processQueuedTasksWith c7Score c7Store 10 = c7Store :=
  c7_pass_rolls_back_on_failure.1 c7Score c7Store 10
    ⟨c7TaskA, by decide, by decide⟩

/-- C8: with a valid user id, `create_batch_task` fails with `FileTooLarge`
exactly when the file size is at least 10 MiB (the boundary is exclusive:
exactly `10 * 1024 * 1024` bytes is rejected), and a smaller file whose
extension is not csv/txt/json fails with `UnsupportedFormat`; this holds for
every content validator. -/
theorem c8_size_and_format_checks :
    ∀ (cv : List Nat → String → String → Except String Unit) (s : Store)
      (uid : String) (content : List Nat) (filename : String) (now : Nat)
      (uuid : String),
      (∃ u2, validateUserId uid = Except.ok u2) →
      (((createBatchTask cv s uid content filename now uuid).1 =
          Except.error (BatchErr.fileTooLarge content.length maxBatchFileSize filename)) ↔
        maxBatchFileSize ≤ content.length)
      ∧ (content.length < maxBatchFileSize →
          ("." ++ fileExt filename) ∉ validExtensions →
          (createBatchTask cv s uid content filename now uuid).1 =
            Except.error (BatchErr.unsupportedFormat filename (fileExt filename))) := by
  intro cv s uid content filename now uuid hu
  obtain ⟨u2, hu⟩ := hu
  constructor
  · by_cases h1 : maxBatchFileSize ≤ content.length
    · simp [createBatchTask, hu, h1]
    · constructor
      · intro hE
        by_cases h2 : ("." ++ fileExt filename) ∈ validExtensions
        · cases hcv : cv content (fileExt filename) filename with
          | error m => simp [createBatchTask, hu, h1, h2, hcv] at hE
          | ok u => simp [createBatchTask, hu, h1, h2, hcv] at hE
        · simp [createBatchTask, hu, h1, h2] at hE
      · intro hsz
        exact absurd hsz h1
  · intro hlt h2
    simp [createBatchTask, hu, Nat.not_le.mpr hlt, h2]

/-- C8 (witness): a file of exactly 10 MiB is rejected as too large, and a
small `.pdf` file is rejected as an unsupported format. -/
theorem c8_witness :
    (createBatchTask cv0 ⟨[]⟩ "user1" (List.replicate maxBatchFileSize 0)
        "data.csv" 0 "id-w8").1 =
      Except.error (BatchErr.fileTooLarge (List.replicate maxBatchFileSize (0 : Nat)).length
        maxBatchFileSize "data.csv")
    ∧ (createBatchTask cv0 ⟨[]⟩ "user1" [97] "file.pdf" 0 "id-w8").1 =
      Except.error (BatchErr.unsupportedFormat "file.pdf" (fileExt "file.pdf")) := by
  constructor
  · exact ((c8_size_and_format_checks cv0 ⟨[]⟩ "user1"
      (List.replicate maxBatchFileSize 0) "data.csv" 0 "id-w8"
      ⟨"user1", rfl⟩).1).mpr (by simp)
  · exact (c8_size_and_format_checks cv0 ⟨[]⟩ "user1" [97] "file.pdf" 0 "id-w8"
      ⟨"user1", rfl⟩).2 (by decide) (by decide)

/-- C9: every successful `create_batch_task` persists a row whose `file_path`
(and `text`) are null: the service passes only filename/file_size/file_type in
`extra_data`, and the repository only copies a `file_path` key for batch
tasks, so nothing of the uploaded file is stored on the Task row. -/
theorem c9_batch_file_path_never_stored :
    ∀ (cv : List Nat → String → String → Except String Unit) (s : Store)
      (uid : String) (content : List Nat) (filename : String) (now : Nat)
      (uuid : String),
      (createBatchTask cv s uid content filename now uuid).1.isOk = true →
      ∃ row, (createBatchTask cv s uid content filename now uuid).2.rows =
          s.rows ++ [row] ∧
        row.file_path = none ∧ row.text = none ∧ row.type = TaskType.batch ∧
        row.status = TaskStatus.accepted := by
  intro cv s uid content filename now uuid h
  cases hu : validateUserId uid with
  | error m => simp [createBatchTask, hu, Except.isOk, Except.toBool] at h
  | ok uu =>
    by_cases h1 : maxBatchFileSize ≤ content.length
    · simp [createBatchTask, hu, h1, Except.isOk, Except.toBool] at h
    · by_cases h2 : ("." ++ fileExt filename) ∈ validExtensions
      case neg => simp [createBatchTask, hu, h1, h2, Except.isOk, Except.toBool] at h
      case pos =>
        cases hcv : cv content (fileExt filename) filename with
        | error m =>
          simp [createBatchTask, hu, h1, h2, hcv, Except.isOk, Except.toBool] at h
        | ok u =>
          have hc : (createBatchTask cv s uid content filename now uuid).2 =
              (repoCreate s TaskType.batch uu
                { filename := some filename, file_size := some content.length,
                  file_type := some (fileExt filename) } uuid now).2 := by
            simp [createBatchTask, hu, h1, h2, hcv]
          obtain ⟨hrows, hst, -, -, -, -, hty, hfp, htext⟩ :=
            repoCreate_spec s TaskType.batch uu
              { filename := some filename, file_size := some content.length,
                file_type := some (fileExt filename) } uuid now
          exact ⟨_, by rw [hc]; exact hrows, hfp rfl, htext rfl, hty, hst⟩

/-- C9 (witness): the theorem applied to a concrete successful upload. -/
theorem c9_witness :
    ∃ row, (createBatchTask cv0 ⟨[]⟩ "user1" [104] "data.txt" 7 "id-w9").2.rows =
        ([] : List DbTask) ++ [row] ∧
      row.file_path = none ∧ row.text = none ∧ row.type = TaskType.batch ∧
      row.status = TaskStatus.accepted :=
  c9_batch_file_path_never_stored cv0 ⟨[]⟩ "user1" [104] "data.txt" 7 "id-w9" (by rfl)

/-- C10: whenever `get_last_single_task` returns a `ready` task, its result
payload is the fixed constant (positive, 0.95, "Sample analyzed text"),
independent of the sentiment/confidence the worker stored on the row — the
stored analysis is never surfaced. -/
theorem c10_ready_single_result_is_constant :
    ∀ (s : Store) (uid : String) (t : DomainTask),
      getLastSingleTask s uid = Except.ok t → t.status = TaskStatus.ready →
      t.result = some (TaskResult.single readyMockSingle) := by
  intro s uid t h hr
  cases hdb : getLastUserTask s uid TaskType.single with
  | none => simp [getLastSingleTask, hdb] at h
  | some db =>
    simp only [getLastSingleTask, hdb, Except.ok.injEq] at h
    by_cases hst : (dbTaskToDomain db).status = TaskStatus.ready
    · rw [if_pos hst] at h
      rw [← h]
    · rw [if_neg hst] at h
      rw [← h] at hr
      exact absurd hr hst

/-- C10 (witness): a store whose latest single task is `ready` with a stored
negative sentiment and confidence 0.1 still surfaces the constant mock. -/
theorem c10_witness :
    ∃ t, getLastSingleTask c10Store "u10" = Except.ok t ∧
      t.result = some (TaskResult.single readyMockSingle) :=
  ⟨_, rfl, c10_ready_single_result_is_constant c10Store "u10" _ rfl (by rfl)⟩

end ReviewTasks
